import Mathlib

/-!
# Environment lifecycle controller (`vnc-windows/CommonController/include/Env.h`)

A shallow embedding of class `Env`: the reset sequence with its single-flight
guard, the action router, the no-clients hook, the constructor and the
destructor.

A call of a member runs from its entry to its exit on one thread; only
`run_schedule` lets several dispatch contexts take turns inside `Env::reset`.
The collaborators are not part of the header and enter as parameters
(`Collab`):

* the virtual members implemented by a derived class (`reset_game`,
  `before_reset`, `after_reset`, `when_no_clients`, `change_settings`),
  `JoystickController::set` and the `AgentConn` senders act on an outside
  world of type `X` and may raise;
* the `Rewarder` has its own state of type `R`, driven only by the calls the
  header makes on it.

Every call the controller makes on a collaborator, and every log record, is
appended to a ghost `trace` at the moment of the call.
-/

set_option linter.dupNamespace false

namespace Env

/-- Diagnostic text carried by a C++ exception. -/
abbrev Err := String

/-- How a call ends: it returns, or an exception leaves it. -/
inductive Outcome where
  | returned
  | raised (e : Err)
  deriving DecidableEq, Repr

/-- The part of `Json::Value` the controller looks at.  `intValue` and
`uintValue` are both `int`; `realValue` is left out. -/
inductive Json where
  | null
  | bool (b : Bool)
  | int (n : Int)
  | str (s : String)
  | arr (xs : List Json)
  | obj (members : List (String × Json))

namespace Json

/-- The const `operator[](const char*)`: a member of an object, the null value
when the member is missing or the value is null, a failure on anything else. -/
def get (key : String) : Json → Except Err Json
  | null => .ok null
  | obj members =>
    match members.find? (fun m => m.1 == key) with
    | some m => .ok m.2
    | none => .ok null
  | _ => .error "in Json::Value::find(begin, end): requires objectValue or nullValue"

/-- The non-const `operator[](0)` as a read: the first element of an array, the
null value it creates when the array is empty or the value is null, a failure
on anything else. -/
def index0 : Json → Except Err Json
  | null => .ok null
  | arr [] => .ok null
  | arr (x :: _) => .ok x
  | _ => .error "in Json::Value::operator[](ArrayIndex): requires arrayValue"

/-- The conversion `asString()`. -/
def asString : Json → Except Err String
  | null => .ok ""
  | str s => .ok s
  | bool b => .ok (if b then "true" else "false")
  | int n => .ok (toString n)
  | _ => .error "Type is not convertible to string"

/-- The values a range-based `for` visits: the elements of an array in order,
the member values of an object in the order of its map, nothing otherwise. -/
def elements : Json → List Json
  | arr xs => xs
  | obj members => members.map (fun m => m.2)
  | _ => []

end Json

/-- The function `boost::starts_with(input, test)`. -/
def starts_with (input test : String) : Bool :=
  test.data.isPrefixOf input.data

/-- Severity levels the controller logs at. -/
inductive Severity where
  | warning
  | error
  deriving DecidableEq, Repr

/-- The member functions the constructor binds as callbacks. -/
inductive Callback where
  | reset
  | _act
  | _when_no_clients
  deriving DecidableEq, Repr

/-- One entry of the ghost trace: a call on a collaborator with its arguments,
or a log record. -/
inductive Call (Id Fps : Type) where
  | before_reset
  | reset_game
  | after_reset
  | when_no_clients
  | change_settings (settings : Json)
  | joystick_set (event : Json)
  | rewarder_reset
  | rewarder_hard_reset
  | send_reset_reply (agent_request : Json) (episode_id : Id)
  | send_env_describe (env_id : String) (status : String) (episode_id : Id) (fps : Fps)
  | on_reset (cb : Callback)
  | on_action (cb : Callback)
  | on_no_clients (cb : Callback)
  | disconnect (cb : Callback)
  | log (sev : Severity) (msg : String)

/-- The collaborators of the controller.  A call maps the state it acts on to
the state it leaves and its outcome. -/
structure Collab (X R Id Fps : Type) where
  reset_game : X → X × Outcome
  before_reset : X → X × Outcome
  after_reset : X → X × Outcome
  when_no_clients : X → X × Outcome
  change_settings : Json → X → X × Outcome
  joystick_set : Json → X → X × Outcome
  rewarder_reset : R → R × Outcome
  rewarder_hard_reset : R → R × Outcome
  get_episode_id : R → Id
  get_frames_per_second : R → Fps
  send_reset_reply : Json → Id → X → X × Outcome
  send_env_describe : String → String → Id → Fps → X → X × Outcome
  on_reset : X → X × Outcome
  on_action : X → X × Outcome
  on_no_clients : X → X × Outcome

/-- The controller object together with the world around it. -/
structure EnvState (X R Id Fps : Type) where
  env_id_ : String
  rewarder : R
  world : X
  /-- The flag `reset_lock_.owns_lock()`. -/
  owns_lock : Bool
  agent_reset_connection : Bool
  agent_action_connection : Bool
  no_clients_connection : Bool
  trace : List (Call Id Fps)

/-- Result of running a piece of the controller: a value or an exception. -/
inductive Res (α : Type) where
  | ok (a : α)
  | raised (e : Err)
  deriving DecidableEq, Repr

/-- Code of the controller: it runs on a state and leaves a result and a state. -/
def EnvM (σ α : Type) : Type := σ → Res α × σ

namespace EnvM

/-- Normal return. -/
def ret {σ α : Type} (a : α) : EnvM σ α := fun s => (.ok a, s)

/-- Sequencing: an exception skips the rest. -/
def andThen {σ α β : Type} (m : EnvM σ α) (f : α → EnvM σ β) : EnvM σ β := fun s =>
  match m s with
  | (.ok a, s1) => f a s1
  | (.raised e, s1) => (.raised e, s1)

/-- The statement `throw`. -/
def raise {σ α : Type} (e : Err) : EnvM σ α := fun s => (.raised e, s)

/-- The block `try { body } catch (...) { handler }`. -/
def tryCatchAll {σ : Type} (body : EnvM σ Unit) (handler : Err → EnvM σ Unit) : EnvM σ Unit := fun s =>
  match body s with
  | (.ok a, s1) => (.ok a, s1)
  | (.raised e, s1) => handler e s1

end EnvM

instance {σ : Type} : Monad (EnvM σ) where
  pure := EnvM.ret
  bind := EnvM.andThen

variable {X R Id Fps : Type}

/-- Append one entry to the ghost trace. -/
def record (k : Call Id Fps) : EnvM (EnvState X R Id Fps) Unit := fun s =>
  (.ok (), { s with trace := s.trace ++ [k] })

/-- A call on a collaborator acting on the outside world. -/
def callWorld (k : Call Id Fps) (f : X → X × Outcome) : EnvM (EnvState X R Id Fps) Unit := fun s =>
  let s1 := { s with trace := s.trace ++ [k] }
  match f s.world with
  | (x, .returned) => (.ok (), { s1 with world := x })
  | (x, .raised e) => (.raised e, { s1 with world := x })

/-- A call on the rewarder. -/
def callRewarder (k : Call Id Fps) (f : R → R × Outcome) : EnvM (EnvState X R Id Fps) Unit := fun s =>
  let s1 := { s with trace := s.trace ++ [k] }
  match f s.rewarder with
  | (r, .returned) => (.ok (), { s1 with rewarder := r })
  | (r, .raised e) => (.raised e, { s1 with rewarder := r })

/-- The macro `BOOST_LOG_SEV(lg_, sev) << msg`. -/
def log (sev : Severity) (msg : String) : EnvM (EnvState X R Id Fps) Unit :=
  record (.log sev msg)

/-- The getter `rewarder.get_episode_id()`. -/
def get_episode_id (c : Collab X R Id Fps) : EnvM (EnvState X R Id Fps) Id := fun s =>
  (.ok (c.get_episode_id s.rewarder), s)

/-- The getter `rewarder.get_frames_per_second()`. -/
def get_frames_per_second (c : Collab X R Id Fps) : EnvM (EnvState X R Id Fps) Fps := fun s =>
  (.ok (c.get_frames_per_second s.rewarder), s)

/-- The member `env_id_`. -/
def read_env_id : EnvM (EnvState X R Id Fps) String := fun s => (.ok s.env_id_, s)

/-- The call `agent_conn_->send_reset_reply(request, episode_id)`. -/
def send_reset_reply (c : Collab X R Id Fps) (agent_request : Json) (episode_id : Id) :
    EnvM (EnvState X R Id Fps) Unit :=
  callWorld (.send_reset_reply agent_request episode_id) (c.send_reset_reply agent_request episode_id)

/-- The call `agent_conn_->send_env_describe(env_id, status, episode_id, fps)`. -/
def send_env_describe (c : Collab X R Id Fps) (envId status : String) (episode_id : Id) (fps : Fps) :
    EnvM (EnvState X R Id Fps) Unit :=
  callWorld (.send_env_describe envId status episode_id fps) (c.send_env_describe envId status episode_id fps)

/-- An assignment to a member of the controller. -/
def modifyConn (f : EnvState X R Id Fps → EnvState X R Id Fps) : EnvM (EnvState X R Id Fps) Unit :=
  fun s => (.ok (), f s)

/-- The member `resetting()`: whether `reset_lock_` owns its mutex. -/
def resetting (s : EnvState X R Id Fps) : Bool := s.owns_lock

/-- The call `reset_lock_.lock()`: it fails when the lock is already owned. -/
def lock : EnvM (EnvState X R Id Fps) Unit := fun s =>
  if s.owns_lock then (.raised "resource deadlock would occur", s)
  else (.ok (), { s with owns_lock := true })

/-- The call `reset_lock_.unlock()`. -/
def unlock (s : EnvState X R Id Fps) : EnvState X R Id Fps :=
  { s with owns_lock := false }

/-- The scope of `std::lock_guard<decltype(reset_lock_)> g(reset_lock_)`: lock
on entry, unlock on every exit of the scope, an exception included. -/
def lock_guard (body : EnvM (EnvState X R Id Fps) Unit) : EnvM (EnvState X R Id Fps) Unit := fun s =>
  match lock s with
  | (.raised e, s1) => (.raised e, s1)
  | (.ok _, s1) =>
    match body s1 with
    | (r, s2) => (r, unlock s2)

/-- The member `Env::reset`. -/
def reset (c : Collab X R Id Fps) (agent_request : Json := Json.null) :
    EnvM (EnvState X R Id Fps) Unit := fun s =>
  if resetting s then
    log .warning "Concurrent: reset request, ignoring" s
  else
    lock_guard (do
      callWorld .before_reset c.before_reset
      send_reset_reply c agent_request (← get_episode_id c)
      send_env_describe c (← read_env_id) "resetting" (← get_episode_id c) (← get_frames_per_second c)
      callWorld .reset_game c.reset_game
      callRewarder .rewarder_reset c.rewarder_reset
      send_env_describe c (← read_env_id) "running" (← get_episode_id c) (← get_frames_per_second c)
      callWorld .after_reset c.after_reset) s

/-- The base-class body of the virtual member `Env::when_no_clients`: empty. -/
def when_no_clients (x : X) : X × Outcome := (x, .returned)

/-- The member `Env::_when_no_clients`. -/
def _when_no_clients (c : Collab X R Id Fps) : EnvM (EnvState X R Id Fps) Unit := do
  callRewarder .rewarder_hard_reset c.rewarder_hard_reset
  callWorld .when_no_clients c.when_no_clients

/-- A jsoncpp result inside the controller: a failure becomes an exception. -/
def liftExcept {α : Type} : Except Err α → EnvM (EnvState X R Id Fps) α
  | .ok a => EnvM.ret a
  | .error e => EnvM.raise e

/-- The expression `event[0].asString()`. -/
def leading_tag (event : Json) : Except Err String :=
  match event.index0 with
  | .ok v => v.asString
  | .error e => .error e

/-- The body of the `try` block of `Env::act` for one event. -/
def act_try (c : Collab X R Id Fps) (event : Json) : EnvM (EnvState X R Id Fps) Unit := do
  if starts_with (← liftExcept (leading_tag event)) "Joystick" then
    callWorld (.joystick_set event) (c.joystick_set event)
  else if starts_with (← liftExcept (leading_tag event)) "GameSettings" then
    callWorld (.change_settings event) (c.change_settings event)
  else
    pure ()

/-- One turn of the loop of `Env::act`: the `try` block with its `catch (...)`. -/
def act_event (c : Collab X R Id Fps) (event : Json) : EnvM (EnvState X R Id Fps) Unit :=
  EnvM.tryCatchAll (act_try c event)
    (fun e => log .error ("Error processing act request\n" ++ e))

/-- The loop `for (Json::Value event : action)` of `Env::act`. -/
def act_loop (c : Collab X R Id Fps) : List Json → EnvM (EnvState X R Id Fps) Unit
  | [] => pure ()
  | event :: rest => do
    act_event c event
    act_loop c rest

/-- The expression `agent_request["body"]["action"]`. -/
def action_of (agent_request : Json) : Except Err Json :=
  match agent_request.get "body" with
  | .ok body => body.get "action"
  | .error e => .error e

/-- The member `Env::act`. -/
def act (c : Collab X R Id Fps) (agent_request : Json) : EnvM (EnvState X R Id Fps) Unit := do
  let action ← liftExcept (action_of agent_request)
  act_loop c action.elements

/-- The member `Env::_act`. -/
def _act (c : Collab X R Id Fps) (agent_request : Json) : EnvM (EnvState X R Id Fps) Unit :=
  act c agent_request

/-- The state the member initialisers of the constructor leave: the rewarder
and the world as its construction left them, `reset_lock_` deferred, the three
connections empty. -/
def init (env_id : String) (rewarder : R) (world : X) : EnvState X R Id Fps :=
  { env_id_ := env_id, rewarder := rewarder, world := world, owns_lock := false,
    agent_reset_connection := false, agent_action_connection := false,
    no_clients_connection := false, trace := [] }

/-- The body of the constructor `Env::Env`. -/
def Env (c : Collab X R Id Fps) (env_id : String) (rewarder : R) (world : X) :
    Res Unit × EnvState X R Id Fps :=
  (do
    callWorld (.on_reset .reset) c.on_reset
    modifyConn (fun s => { s with agent_reset_connection := true })
    callWorld (.on_action ._act) c.on_action
    modifyConn (fun s => { s with agent_action_connection := true })
    callWorld (.on_no_clients ._when_no_clients) c.on_no_clients
    modifyConn (fun s => { s with no_clients_connection := true })
    send_env_describe c (← read_env_id) "running" (← get_episode_id c) (← get_frames_per_second c))
  (init env_id rewarder world)

/-- The call `disconnect()` on the `boost::signals2::connection` made for a
callback: the registration is released; the call does not throw. -/
def disconnect (cb : Callback) : EnvM (EnvState X R Id Fps) Unit := do
  record (.disconnect cb)
  match cb with
  | .reset => modifyConn (fun s => { s with agent_reset_connection := false })
  | ._act => modifyConn (fun s => { s with agent_action_connection := false })
  | ._when_no_clients => modifyConn (fun s => { s with no_clients_connection := false })

/-- The destructor `Env::~Env`. -/
def destroy : EnvM (EnvState X R Id Fps) Unit := do
  disconnect .reset
  disconnect ._act
  disconnect ._when_no_clients

/-- The member function a callback tag stands for, applied to a message. -/
def invoke (c : Collab X R Id Fps) : Callback → Json → EnvM (EnvState X R Id Fps) Unit
  | .reset, message => reset c message
  | ._act, message => _act c message
  | ._when_no_clients, _ => _when_no_clients c

/-! ### Vocabulary of the specification -/

/-- The seven calls of an accepted reset, in the order of the body of
`Env::reset`; `r0` is the rewarder before `rewarder.reset()`, `r1` after it. -/
def reset_sequence (c : Collab X R Id Fps) (agent_request : Json) (envId : String) (r0 r1 : R) :
    List (Call Id Fps) :=
  [.before_reset,
   .send_reset_reply agent_request (c.get_episode_id r0),
   .send_env_describe envId "resetting" (c.get_episode_id r0) (c.get_frames_per_second r0),
   .reset_game,
   .rewarder_reset,
   .send_env_describe envId "running" (c.get_episode_id r1) (c.get_frames_per_second r1),
   .after_reset]

/-- The controller handles reset requests one after another. -/
def reset_all (c : Collab X R Id Fps) : List Json → EnvM (EnvState X R Id Fps) Unit
  | [] => pure ()
  | agent_request :: rest => do
    reset c agent_request
    reset_all c rest

/-- The seven statements of `Env::reset` under the guard, one by one. -/
def reset_statements (c : Collab X R Id Fps) (agent_request : Json) :
    List (EnvM (EnvState X R Id Fps) Unit) :=
  [callWorld .before_reset c.before_reset,
   (do send_reset_reply c agent_request (← get_episode_id c)),
   (do send_env_describe c (← read_env_id) "resetting" (← get_episode_id c)
        (← get_frames_per_second c)),
   callWorld .reset_game c.reset_game,
   callRewarder .rewarder_reset c.rewarder_reset,
   (do send_env_describe c (← read_env_id) "running" (← get_episode_id c)
        (← get_frames_per_second c)),
   callWorld .after_reset c.after_reset]

/-- Statements run in order while reset requests come in: the requests at the
head of `arrivals` are handled before the first statement, the next ones
before the second, and so on; those after the last statement are handled
before the scope is left. -/
def run_with_arrivals (c : Collab X R Id Fps) :
    List (EnvM (EnvState X R Id Fps) Unit) → List (List Json) → EnvM (EnvState X R Id Fps) Unit
  | [], arrivals => reset_all c (arrivals.headD [])
  | statement :: rest, arrivals => do
    reset_all c (arrivals.headD [])
    statement
    run_with_arrivals c rest arrivals.tail

/-- The member `Env::reset`, with further reset requests coming in on the same
thread while it runs. -/
def reset_in_flight (c : Collab X R Id Fps) (agent_request : Json) (arrivals : List (List Json)) :
    EnvM (EnvState X R Id Fps) Unit := fun s =>
  if resetting s then
    log .warning "Concurrent: reset request, ignoring" s
  else
    lock_guard (run_with_arrivals c (reset_statements c agent_request) arrivals) s

/-- Whether a trace entry is the warning of a dropped reset request. -/
def is_dropped_warning : Call Id Fps → Bool
  | .log .warning _ => true
  | _ => false

/-- The entries of a trace other than the warnings of dropped requests. -/
def accepted_calls (t : List (Call Id Fps)) : List (Call Id Fps) :=
  t.filter (fun k => !is_dropped_warning k)

/-- A statement that reads the trace nowhere, appends entries other than
warnings to it, and leaves the guard alone. -/
def Appends (m : EnvM (EnvState X R Id Fps) Unit) : Prop :=
  ∀ s : EnvState X R Id Fps, ∃ added : List (Call Id Fps),
    accepted_calls added = added ∧
    ∀ t : List (Call Id Fps),
      m { s with trace := t } = ((m s).1, { (m s).2 with trace := t ++ added }) ∧
      (m s).2.owns_lock = s.owns_lock

/-- The status announcements of a trace: the arguments of its
`send_env_describe` calls, in order. -/
def announcements : List (Call Id Fps) → List (String × String × Id × Fps)
  | [] => []
  | .send_env_describe envId status episode_id fps :: rest =>
    (envId, status, episode_id, fps) :: announcements rest
  | _ :: rest => announcements rest

/-- The status strings announced in a trace, in order. -/
def statuses (t : List (Call Id Fps)) : List String :=
  (announcements t).map (fun a => a.2.1)

/-- The lifecycle state as a status string. -/
def lifecycle (s : EnvState X R Id Fps) : String :=
  if resetting s then "resetting" else "running"

/-- Whether a trace entry is a call on the joystick or on `change_settings`. -/
def is_handler_call : Call Id Fps → Bool
  | .joystick_set _ => true
  | .change_settings _ => true
  | _ => false

/-- Whether a trace entry is a log record at error level. -/
def is_error_log : Call Id Fps → Bool
  | .log .error _ => true
  | _ => false

/-- The handler calls of a trace, in order. -/
def handler_calls (t : List (Call Id Fps)) : List (Call Id Fps) :=
  t.filter is_handler_call

/-- The entries of a trace that are neither handler calls nor error logs. -/
def other_calls (t : List (Call Id Fps)) : List (Call Id Fps) :=
  t.filter (fun k => !is_handler_call k && !is_error_log k)

/-- The dispatch table of the specification for one event: a tag prefixed by
the joystick marker sends the event to the input adapter, else a tag prefixed
by the game-settings marker sends it to `change_settings`, else nothing. -/
def route (event : Json) : Option (Call Id Fps) :=
  match leading_tag event with
  | .ok tag =>
    if starts_with tag "Joystick" then some (.joystick_set event)
    else if starts_with tag "GameSettings" then some (.change_settings event)
    else none
  | .error _ => none

/-- Whether a trace entry is a call of `send_reset_reply`. -/
def is_reply_call : Call Id Fps → Bool
  | .send_reset_reply _ _ => true
  | _ => false

/-- Modelled from the spec: `Rewarder::reset` (Rewarder.h is not among the
sources).  "Call `RewardChannel.reset()` to roll episode identity": after a
reset that returns, the rewarder reports another episode id than before. -/
def RollsEpisode (c : Collab X R Id Fps) : Prop :=
  ∀ r : R, (c.rewarder_reset r).2 = .returned →
    c.get_episode_id (c.rewarder_reset r).1 ≠ c.get_episode_id r

/-- Modelled from the spec: `AgentConn::send_reset_reply` (AgentConn is not
among the sources).  "Reply message: episodeId"; "the requester-reply step is
a no-op when there is no originating request": the reply put on the wire for
a call, none when the request is the null value. -/
def reply_sent (agent_request : Json) (episode_id : Id) : Option Id :=
  match agent_request with
  | .null => none
  | _ => some episode_id

/-- The replies put on the wire by the calls of a trace, in order. -/
def replies_sent : List (Call Id Fps) → List Id
  | [] => []
  | .send_reset_reply agent_request episode_id :: rest =>
    (reply_sent agent_request episode_id).toList ++ replies_sent rest
  | _ :: rest => replies_sent rest

/-- Statements run in order; an exception skips the rest. -/
def run_statements : List (EnvM (EnvState X R Id Fps) Unit) → EnvM (EnvState X R Id Fps) Unit
  | [] => pure ()
  | statement :: rest => do
    statement
    run_statements rest

/-- Modelled from the spec: the delivery of a reset request by `AgentConn`
(not among the sources).  "AgentLink invokes controller callbacks"; a released
registration is "never invoked after release": the callback bound at
construction runs while `agent_reset_connection` is connected, nothing runs
otherwise. -/
def deliver_reset (c : Collab X R Id Fps) (agent_request : Json) :
    EnvM (EnvState X R Id Fps) Unit := fun s =>
  if s.agent_reset_connection then invoke c .reset agent_request s else (.ok (), s)

/-- Modelled from the spec: the delivery of an action batch by `AgentConn`
(not among the sources), as for `deliver_reset`, on `agent_action_connection`. -/
def deliver_action (c : Collab X R Id Fps) (agent_request : Json) :
    EnvM (EnvState X R Id Fps) Unit := fun s =>
  if s.agent_action_connection then invoke c ._act agent_request s else (.ok (), s)

/-- Modelled from the spec: the delivery of the no-clients notification by
`AgentConn` (not among the sources), as for `deliver_reset`, on
`no_clients_connection`. -/
def deliver_no_clients (c : Collab X R Id Fps) : EnvM (EnvState X R Id Fps) Unit := fun s =>
  if s.no_clients_connection then invoke c ._when_no_clients .null s else (.ok (), s)

/-- Where a dispatch context stands in a call of `Env::reset`: before the test
`resetting()` of line 47, past the test and before line 53, or out of the
call. -/
inductive Pc where
  | entry
  | passed
  | exited (r : Res Unit)
  deriving DecidableEq, Repr

/-- A dispatch context inside a call of `Env::reset`. -/
structure Context where
  agent_request : Json
  pc : Pc

/-- One dispatch context runs its call of `Env::reset` up to the next point at
which another context may run: from the entry, the test of line 47 with the
warning and the return of lines 50 and 51 when it holds; past the test, lines
53 to 61 in one go. -/
def step_context (c : Collab X R Id Fps) (ctx : Context) (s : EnvState X R Id Fps) :
    Context × EnvState X R Id Fps :=
  match ctx.pc with
  | .entry =>
    if resetting s then
      ({ ctx with pc := .exited (log .warning "Concurrent: reset request, ignoring" s).1 },
        (log .warning "Concurrent: reset request, ignoring" s).2)
    else
      ({ ctx with pc := .passed }, s)
  | .passed =>
    ({ ctx with
        pc := .exited (lock_guard (run_statements (reset_statements c ctx.agent_request)) s).1 },
      (lock_guard (run_statements (reset_statements c ctx.agent_request)) s).2)
  | .exited _ => (ctx, s)

/-- Dispatch contexts take turns: each number in the schedule lets the context
of that index make one step. -/
def run_schedule (c : Collab X R Id Fps) :
    List Nat → List Context → EnvState X R Id Fps → List Context × EnvState X R Id Fps
  | [], contexts, s => (contexts, s)
  | i :: rest, contexts, s =>
    match contexts[i]? with
    | none => run_schedule c rest contexts s
    | some ctx =>
      run_schedule c rest (contexts.set i (step_context c ctx s).1) (step_context c ctx s).2

/-- The results with which the contexts have left `Env::reset`, none for a
context still inside. -/
def exits (contexts : List Context) : List (Option (Res Unit)) :=
  contexts.map (fun ctx => match ctx.pc with
    | .exited r => some r
    | _ => none)

/-! ### Concrete collaborators, for evaluating the controller -/

/-- A rewarder that counts episodes, a world that counts the calls made on it;
no call raises. -/
def demo : Collab Nat Nat Nat Nat where
  reset_game x := (x + 1, .returned)
  before_reset x := (x + 1, .returned)
  after_reset x := (x + 1, .returned)
  when_no_clients x := when_no_clients x
  change_settings _ x := (x + 1, .returned)
  joystick_set _ x := (x + 1, .returned)
  rewarder_reset r := (r + 1, .returned)
  rewarder_hard_reset _ := (0, .returned)
  get_episode_id r := r
  get_frames_per_second _ := 60
  send_reset_reply _ _ x := (x + 1, .returned)
  send_env_describe _ _ _ _ x := (x + 1, .returned)
  on_reset x := (x + 1, .returned)
  on_action x := (x + 1, .returned)
  on_no_clients x := (x + 1, .returned)

/-- The collaborators of `demo` with a game that fails to come up in
`reset_game` while the world counter is below `n`. -/
def demoFailing (n : Nat) : Collab Nat Nat Nat Nat :=
  { demo with
    reset_game := fun x => if x < n then (x + 1, .raised "game not ready") else (x + 1, .returned) }

/-- The collaborators of `demo` with handlers that raise on every event. -/
def demoRaising : Collab Nat Nat Nat Nat :=
  { demo with
    joystick_set := fun _ x => (x + 1, .raised "vJoy device not acquired")
    change_settings := fun _ x => (x + 1, .raised "unknown setting") }

/-- A controller state around `demo`: episode `7`, guard as given. -/
def demoState (owns : Bool) : EnvState Nat Nat Nat Nat :=
  { env_id_ := "flashgames.DuskDrive-v0", rewarder := 7, world := 0, owns_lock := owns,
    agent_reset_connection := true, agent_action_connection := true,
    no_clients_connection := true, trace := [] }

/-- The request `{"body": {"action": batch}}`. -/
def action_request (batch : List Json) : Json :=
  .obj [("body", .obj [("action", .arr batch)])]

/-! ### Lemmas on the reset sequence -/

theorem reset_when_resetting (c : Collab X R Id Fps) (agent_request : Json)
    (s : EnvState X R Id Fps) (hs : resetting s = true) :
    reset c agent_request s =
      (.ok (), { s with
        trace := s.trace ++ [.log .warning "Concurrent: reset request, ignoring"] }) := by
  simp [reset, hs, log, record]

theorem reset_guard_after (c : Collab X R Id Fps) (agent_request : Json)
    (s : EnvState X R Id Fps) (hs : resetting s = false) :
    (reset c agent_request s).2.owns_lock = false := by
  have hs' : s.owns_lock = false := hs
  simp [reset, hs, hs', lock_guard, lock, unlock]

/-- An accepted reset runs the seven calls in order as far as the collaborators
let it: the trace grows by the first `k` of them, `k ≥ 1`, and by all seven
when the reset returns. -/
theorem reset_trace_take (c : Collab X R Id Fps) (agent_request : Json)
    (s : EnvState X R Id Fps) (hs : resetting s = false) :
    ∃ k, 1 ≤ k ∧ k ≤ 7 ∧
      (reset c agent_request s).2.trace =
        s.trace ++ (reset_sequence c agent_request s.env_id_ s.rewarder
          (c.rewarder_reset s.rewarder).1).take k ∧
      ((reset c agent_request s).1 = .ok () →
        k = 7 ∧ (reset c agent_request s).2.rewarder = (c.rewarder_reset s.rewarder).1 ∧
        (c.rewarder_reset s.rewarder).2 = .returned) := by
  have hs' : s.owns_lock = false := hs
  rcases h1 : c.before_reset s.world with ⟨x1, _ | e1⟩
  swap
  · exact ⟨1, by simp [reset, hs, hs', lock_guard, lock, unlock, bind, EnvM.andThen, callWorld,
      reset_sequence, h1]⟩
  rcases h2 : c.send_reset_reply agent_request (c.get_episode_id s.rewarder) x1 with ⟨x2, _ | e2⟩
  swap
  · exact ⟨2, by simp [reset, hs, hs', lock_guard, lock, unlock, bind, EnvM.andThen, callWorld,
      send_reset_reply, get_episode_id, reset_sequence, h1, h2]⟩
  rcases h3 : c.send_env_describe s.env_id_ "resetting" (c.get_episode_id s.rewarder)
    (c.get_frames_per_second s.rewarder) x2 with ⟨x3, _ | e3⟩
  swap
  · exact ⟨3, by simp [reset, hs, hs', lock_guard, lock, unlock, bind, EnvM.andThen, callWorld,
      send_reset_reply, send_env_describe, get_episode_id, get_frames_per_second, read_env_id,
      reset_sequence, h1, h2, h3]⟩
  rcases h4 : c.reset_game x3 with ⟨x4, _ | e4⟩
  swap
  · exact ⟨4, by simp [reset, hs, hs', lock_guard, lock, unlock, bind, EnvM.andThen, callWorld,
      send_reset_reply, send_env_describe, get_episode_id, get_frames_per_second, read_env_id,
      reset_sequence, h1, h2, h3, h4]⟩
  rcases h5 : c.rewarder_reset s.rewarder with ⟨r1, _ | e5⟩
  swap
  · exact ⟨5, by simp [reset, hs, hs', lock_guard, lock, unlock, bind, EnvM.andThen, callWorld,
      callRewarder, send_reset_reply, send_env_describe, get_episode_id, get_frames_per_second,
      read_env_id, reset_sequence, h1, h2, h3, h4, h5]⟩
  rcases h6 : c.send_env_describe s.env_id_ "running" (c.get_episode_id r1)
    (c.get_frames_per_second r1) x4 with ⟨x5, _ | e6⟩
  swap
  · exact ⟨6, by simp [reset, hs, hs', lock_guard, lock, unlock, bind, EnvM.andThen, callWorld,
      callRewarder, send_reset_reply, send_env_describe, get_episode_id, get_frames_per_second,
      read_env_id, reset_sequence, h1, h2, h3, h4, h5, h6]⟩
  rcases h7 : c.after_reset x5 with ⟨x6, _ | e7⟩
  · exact ⟨7, by simp [reset, hs, hs', lock_guard, lock, unlock, bind, EnvM.andThen, callWorld,
      callRewarder, send_reset_reply, send_env_describe, get_episode_id, get_frames_per_second,
      read_env_id, reset_sequence, h1, h2, h3, h4, h5, h6, h7]⟩
  · exact ⟨7, by simp [reset, hs, hs', lock_guard, lock, unlock, bind, EnvM.andThen, callWorld,
      callRewarder, send_reset_reply, send_env_describe, get_episode_id, get_frames_per_second,
      read_env_id, reset_sequence, h1, h2, h3, h4, h5, h6, h7]⟩

theorem announcements_append (a b : List (Call Id Fps)) :
    announcements (a ++ b) = announcements a ++ announcements b := by
  induction a with
  | nil => rfl
  | cons k rest ih => cases k <;> simp [announcements, ih]

theorem statuses_append (a b : List (Call Id Fps)) :
    statuses (a ++ b) = statuses a ++ statuses b := by
  simp [statuses, announcements_append]

theorem replies_sent_append (a b : List (Call Id Fps)) :
    replies_sent (a ++ b) = replies_sent a ++ replies_sent b := by
  induction a with
  | nil => rfl
  | cons k rest ih => cases k <;> simp [replies_sent, ih]

theorem reset_all_when_resetting (c : Collab X R Id Fps) (requests : List Json) :
    ∀ s : EnvState X R Id Fps, resetting s = true →
      reset_all c requests s =
        (.ok (), { s with
          trace := s.trace ++
            List.replicate requests.length
              (.log .warning "Concurrent: reset request, ignoring") }) := by
  induction requests with
  | nil => intro s _; simp [reset_all, pure, EnvM.ret]
  | cons agent_request rest ih =>
    intro s hs
    have h := ih { s with trace := s.trace ++ [.log .warning "Concurrent: reset request, ignoring"] } hs
    simp only [reset_all, bind, EnvM.andThen, reset_when_resetting c agent_request s hs, h]
    simp [List.replicate_succ]

/-- A constructor that returns leaves the controller Running, its three
connections made, and a trace of the three registrations followed by the
"running" announcement. -/
theorem Env_returned (c : Collab X R Id Fps) (envId : String) (r0 : R) (x0 : X)
    (h : (Env c envId r0 x0).1 = .ok ()) :
    (Env c envId r0 x0).2.trace =
      [.on_reset .reset, .on_action ._act, .on_no_clients ._when_no_clients,
       .send_env_describe envId "running" (c.get_episode_id r0) (c.get_frames_per_second r0)] ∧
    (Env c envId r0 x0).2.owns_lock = false ∧
    (Env c envId r0 x0).2.rewarder = r0 ∧
    (Env c envId r0 x0).2.env_id_ = envId := by
  revert h
  rcases h1 : c.on_reset x0 with ⟨x1, _ | e1⟩
  swap
  · simp [Env, init, bind, EnvM.andThen, callWorld, h1]
  rcases h2 : c.on_action x1 with ⟨x2, _ | e2⟩
  swap
  · simp [Env, init, bind, EnvM.andThen, callWorld, modifyConn, h1, h2]
  rcases h3 : c.on_no_clients x2 with ⟨x3, _ | e3⟩
  swap
  · simp [Env, init, bind, EnvM.andThen, callWorld, modifyConn, h1, h2, h3]
  rcases h4 : c.send_env_describe envId "running" (c.get_episode_id r0)
    (c.get_frames_per_second r0) x3 with ⟨x4, _ | e4⟩
  · simp [Env, init, bind, EnvM.andThen, callWorld, modifyConn, send_env_describe,
      get_episode_id, get_frames_per_second, read_env_id, h1, h2, h3, h4]
  · simp [Env, init, bind, EnvM.andThen, callWorld, modifyConn, send_env_describe,
      get_episode_id, get_frames_per_second, read_env_id, h1, h2, h3, h4]

/-- An accepted reset that returns has made exactly the seven calls. -/
theorem reset_returned (c : Collab X R Id Fps) (agent_request : Json)
    (s : EnvState X R Id Fps) (hs : resetting s = false)
    (h : (reset c agent_request s).1 = .ok ()) :
    (reset c agent_request s).2.trace =
      s.trace ++ reset_sequence c agent_request s.env_id_ s.rewarder
        (c.rewarder_reset s.rewarder).1 ∧
    (c.rewarder_reset s.rewarder).2 = .returned := by
  obtain ⟨k, _, _, ht, hk⟩ := reset_trace_take c agent_request s hs
  obtain ⟨hk7, _, hret⟩ := hk h
  subst hk7
  exact ⟨by simpa [reset_sequence] using ht, hret⟩

theorem EnvM.ret_andThen {σ α β : Type} (a : α) (f : α → EnvM σ β) :
    EnvM.andThen (EnvM.ret a) f = f a := rfl

theorem EnvM.andThen_ret {σ : Type} (m : EnvM σ Unit) :
    EnvM.andThen m (fun _ => EnvM.ret ()) = m := by
  funext s
  unfold EnvM.andThen EnvM.ret
  rcases m s with ⟨_ | e, s1⟩ <;> rfl

theorem EnvM.andThen_assoc {σ α β γ : Type} (m : EnvM σ α) (f : α → EnvM σ β)
    (g : β → EnvM σ γ) :
    EnvM.andThen (EnvM.andThen m f) g = EnvM.andThen m (fun a => EnvM.andThen (f a) g) := by
  funext s
  unfold EnvM.andThen
  rcases m s with ⟨a | e, s1⟩ <;> rfl

theorem reset_in_flight_no_arrivals (c : Collab X R Id Fps) (agent_request : Json)
    (s : EnvState X R Id Fps) :
    reset_in_flight c agent_request [] s = reset c agent_request s := by
  by_cases hs : resetting s = true
  · simp [reset_in_flight, reset, hs]
  · have hs' : resetting s = false := by simpa using hs
    simp only [reset_in_flight, reset, hs']
    congr 1
    simp only [run_with_arrivals, reset_statements, reset_all, bind, pure, List.headD_nil,
      List.tail_nil, EnvM.ret_andThen, EnvM.andThen_ret, EnvM.andThen_assoc]

theorem accepted_calls_append (a b : List (Call Id Fps)) :
    accepted_calls (a ++ b) = accepted_calls a ++ accepted_calls b := by
  simp [accepted_calls]

theorem accepted_calls_warnings (n : Nat) (msg : String) :
    accepted_calls (List.replicate n (.log .warning msg : Call Id Fps)) = [] := by
  induction n with
  | zero => rfl
  | succ n ih =>
    rw [List.replicate_succ]
    simp [accepted_calls, is_dropped_warning]

theorem appends_callWorld (k : Call Id Fps) (f : X → X × Outcome)
    (hk : is_dropped_warning k = false) :
    Appends (callWorld k f : EnvM (EnvState X R Id Fps) Unit) := by
  intro s
  refine ⟨[k], by simp [accepted_calls, hk], fun t => ?_⟩
  rcases hf : f s.world with ⟨x1, _ | e⟩ <;> simp [callWorld, hf]

theorem appends_callRewarder (k : Call Id Fps) (f : R → R × Outcome)
    (hk : is_dropped_warning k = false) :
    Appends (callRewarder k f : EnvM (EnvState X R Id Fps) Unit) := by
  intro s
  refine ⟨[k], by simp [accepted_calls, hk], fun t => ?_⟩
  rcases hf : f s.rewarder with ⟨r1, _ | e⟩ <;> simp [callRewarder, hf]

theorem appends_reset_statements (c : Collab X R Id Fps) (agent_request : Json) :
    ∀ statement ∈ reset_statements c agent_request, Appends statement := by
  intro statement hmem
  simp only [reset_statements, List.mem_cons, List.mem_singleton, List.not_mem_nil,
    or_false] at hmem
  rcases hmem with h | h | h | h | h | h | h <;> subst h
  · exact appends_callWorld _ _ rfl
  · intro s
    exact appends_callWorld (.send_reset_reply agent_request (c.get_episode_id s.rewarder))
      (c.send_reset_reply agent_request (c.get_episode_id s.rewarder)) rfl s
  · intro s
    exact appends_callWorld
      (.send_env_describe s.env_id_ "resetting" (c.get_episode_id s.rewarder)
        (c.get_frames_per_second s.rewarder))
      (c.send_env_describe s.env_id_ "resetting" (c.get_episode_id s.rewarder)
        (c.get_frames_per_second s.rewarder)) rfl s
  · exact appends_callWorld _ _ rfl
  · exact appends_callRewarder _ _ rfl
  · intro s
    exact appends_callWorld
      (.send_env_describe s.env_id_ "running" (c.get_episode_id s.rewarder)
        (c.get_frames_per_second s.rewarder))
      (c.send_env_describe s.env_id_ "running" (c.get_episode_id s.rewarder)
        (c.get_frames_per_second s.rewarder)) rfl s
  · exact appends_callWorld _ _ rfl

/-- Requests that come in while statements run under a held guard change
nothing but the warnings in the trace. -/
theorem run_with_arrivals_sim (c : Collab X R Id Fps)
    (statements : List (EnvM (EnvState X R Id Fps) Unit)) :
    (∀ statement ∈ statements, Appends statement) →
    ∀ (arrivals : List (List Json)) (s : EnvState X R Id Fps) (t : List (Call Id Fps)),
      s.owns_lock = true → accepted_calls t = accepted_calls s.trace →
      ∃ t1 : List (Call Id Fps),
        accepted_calls t1 = accepted_calls (run_with_arrivals c statements [] s).2.trace ∧
        run_with_arrivals c statements arrivals { s with trace := t } =
          ((run_with_arrivals c statements [] s).1,
            { (run_with_arrivals c statements [] s).2 with trace := t1 }) := by
  induction statements with
  | nil =>
    intro _ arrivals s t hs ht
    refine ⟨t ++ List.replicate (arrivals.headD []).length
      (.log .warning "Concurrent: reset request, ignoring"), ?_, ?_⟩
    · rw [accepted_calls_append, accepted_calls_warnings, ht]
      simp [run_with_arrivals, reset_all, pure, EnvM.ret]
    · simp only [run_with_arrivals]
      rw [reset_all_when_resetting c _ { s with trace := t } hs]
      simp [reset_all, pure, EnvM.ret]
  | cons statement rest ih =>
    intro hall arrivals s t hs ht
    obtain ⟨added, hadded, happ⟩ := hall statement (List.mem_cons_self _ _) s
    have hrest : ∀ st ∈ rest, Appends st := fun st h => hall st (List.mem_cons_of_mem _ h)
    have hplain : run_with_arrivals c (statement :: rest) [] s =
        EnvM.andThen statement (fun _ => run_with_arrivals c rest []) s := by
      simp [run_with_arrivals, reset_all, bind, pure, EnvM.ret_andThen]
    have hself : (statement s).2.trace = s.trace ++ added := by
      have h := (happ s.trace).1
      have h2 : ({ s with trace := s.trace } : EnvState X R Id Fps) = s := rfl
      rw [h2] at h
      have h3 := congrArg (fun p => p.2.trace) h
      simpa using h3
    have hown : (statement s).2.owns_lock = true := by rw [(happ s.trace).2]; exact hs
    let t0 := t ++ List.replicate (arrivals.headD []).length
      (Call.log Severity.warning "Concurrent: reset request, ignoring" : Call Id Fps)
    have ht0 : accepted_calls (t0 ++ added) = accepted_calls (statement s).2.trace := by
      rw [hself]
      simp only [t0, accepted_calls_append, accepted_calls_warnings, ht, List.append_nil]
    have hstep : run_with_arrivals c (statement :: rest) arrivals { s with trace := t } =
        EnvM.andThen statement (fun _ => run_with_arrivals c rest arrivals.tail)
          { s with trace := t0 } := by
      simp only [run_with_arrivals, bind, EnvM.andThen]
      rw [reset_all_when_resetting c _ { s with trace := t } hs]
    rw [hstep, hplain]
    simp only [EnvM.andThen]
    rw [(happ t0).1]
    rcases hr : (statement s).1 with _ | e
    · obtain ⟨t1, h1, h2⟩ := ih hrest arrivals.tail (statement s).2 (t0 ++ added) hown ht0
      refine ⟨t1, ?_, ?_⟩
      · rw [h1]
        have : statement s = (Res.ok (), (statement s).2) := Prod.ext hr rfl
        rw [this]
      · have : statement s = (Res.ok (), (statement s).2) := Prod.ext hr rfl
        rw [this]
        simpa using h2
    · refine ⟨t0 ++ added, ?_, ?_⟩
      · have : statement s = (Res.raised e, (statement s).2) := Prod.ext hr rfl
        rw [this]
        simpa using ht0
      · have : statement s = (Res.raised e, (statement s).2) := Prod.ext hr rfl
        rw [this]

/-- A reset during which further requests come in ends as the reset alone
does and leaves the same state, up to the warnings of the dropped requests. -/
theorem reset_in_flight_sim (c : Collab X R Id Fps) (agent_request : Json)
    (arrivals : List (List Json)) (s : EnvState X R Id Fps) (hs : resetting s = false) :
    ∃ t1 : List (Call Id Fps),
      accepted_calls t1 = accepted_calls (reset c agent_request s).2.trace ∧
      reset_in_flight c agent_request arrivals s =
        ((reset c agent_request s).1, { (reset c agent_request s).2 with trace := t1 }) := by
  have hs' : s.owns_lock = false := hs
  obtain ⟨t1, h1, h2⟩ := run_with_arrivals_sim c (reset_statements c agent_request)
    (appends_reset_statements c agent_request) arrivals { s with owns_lock := true } s.trace
    rfl rfl
  refine ⟨t1, ?_, ?_⟩
  · rw [← reset_in_flight_no_arrivals]
    simpa [reset_in_flight, hs, hs', lock_guard, lock, unlock] using h1
  · rw [← reset_in_flight_no_arrivals]
    have h3 : ({ s with owns_lock := true, trace := s.trace } : EnvState X R Id Fps) =
        { s with owns_lock := true } := rfl
    rw [h3] at h2
    simp [reset_in_flight, hs, hs', lock_guard, lock, unlock, h2]

/-! ### Lemmas on the action router -/

theorem act_action_request (c : Collab X R Id Fps) (batch : List Json) (s : EnvState X R Id Fps) :
    act c (action_request batch) s = act_loop c batch s := by
  simp [act, action_request, action_of, Json.get, liftExcept, bind, EnvM.andThen, EnvM.ret,
    Json.elements]

/-- One turn of the loop returns; it appends the call the dispatch table names
for the event, if any, and after it at most one error log. -/
theorem act_event_trace (c : Collab X R Id Fps) (event : Json) (s : EnvState X R Id Fps) :
    (act_event c event s).1 = .ok () ∧
    ∃ logs : List (Call Id Fps), (∀ k ∈ logs, is_error_log k = true ∧ is_handler_call k = false) ∧
      (act_event c event s).2.trace = s.trace ++ ((route event).toList ++ logs) := by
  rcases ht : leading_tag event with e | tag
  · refine ⟨by simp [act_event, act_try, EnvM.tryCatchAll, bind, EnvM.andThen, liftExcept,
      EnvM.raise, ht, log, record], [.log .error ("Error processing act request\n" ++ e)], ?_, ?_⟩
    · simp [is_error_log, is_handler_call]
    · simp [act_event, act_try, EnvM.tryCatchAll, bind, EnvM.andThen, liftExcept,
        EnvM.raise, ht, log, record, route]
  · by_cases hj : starts_with tag "Joystick" = true
    · rcases hc : c.joystick_set event s.world with ⟨x1, _ | e⟩
      · exact ⟨by simp [act_event, act_try, EnvM.tryCatchAll, bind, EnvM.andThen, liftExcept,
          EnvM.ret, ht, hj, callWorld, hc], [], by simp, by
          simp [act_event, act_try, EnvM.tryCatchAll, bind, EnvM.andThen, liftExcept,
            EnvM.ret, ht, hj, callWorld, hc, route]⟩
      · exact ⟨by simp [act_event, act_try, EnvM.tryCatchAll, bind, EnvM.andThen, liftExcept,
          EnvM.ret, ht, hj, callWorld, hc, log, record],
          [.log .error ("Error processing act request\n" ++ e)],
          by simp [is_error_log, is_handler_call], by
          simp [act_event, act_try, EnvM.tryCatchAll, bind, EnvM.andThen, liftExcept,
            EnvM.ret, ht, hj, callWorld, hc, route, log, record]⟩
    · by_cases hg : starts_with tag "GameSettings" = true
      · rcases hc : c.change_settings event s.world with ⟨x1, _ | e⟩
        · exact ⟨by simp [act_event, act_try, EnvM.tryCatchAll, bind, EnvM.andThen, liftExcept,
            EnvM.ret, ht, hj, hg, callWorld, hc], [], by simp, by
            simp [act_event, act_try, EnvM.tryCatchAll, bind, EnvM.andThen, liftExcept,
              EnvM.ret, ht, hj, hg, callWorld, hc, route]⟩
        · exact ⟨by simp [act_event, act_try, EnvM.tryCatchAll, bind, EnvM.andThen, liftExcept,
            EnvM.ret, ht, hj, hg, callWorld, hc, log, record],
            [.log .error ("Error processing act request\n" ++ e)],
            by simp [is_error_log, is_handler_call], by
            simp [act_event, act_try, EnvM.tryCatchAll, bind, EnvM.andThen, liftExcept,
              EnvM.ret, ht, hj, hg, callWorld, hc, route, log, record]⟩
      · exact ⟨by simp [act_event, act_try, EnvM.tryCatchAll, bind, EnvM.andThen, liftExcept,
            EnvM.ret, ht, hj, hg, pure], [], by simp, by
            simp [act_event, act_try, EnvM.tryCatchAll, bind, EnvM.andThen, liftExcept,
              EnvM.ret, ht, hj, hg, route, pure]⟩

theorem act_event_returns (c : Collab X R Id Fps) (event : Json) (s : EnvState X R Id Fps) :
    act_event c event s = (.ok (), (act_event c event s).2) := by
  have h := (act_event_trace c event s).1
  exact Prod.ext h rfl

theorem act_loop_cons (c : Collab X R Id Fps) (event : Json) (rest : List Json)
    (s : EnvState X R Id Fps) :
    act_loop c (event :: rest) s = act_loop c rest (act_event c event s).2 := by
  have h := act_event_returns c event s
  simp only [act_loop, bind, EnvM.andThen]
  rw [h]

theorem act_loop_returns (c : Collab X R Id Fps) (batch : List Json) :
    ∀ s : EnvState X R Id Fps, (act_loop c batch s).1 = .ok () := by
  induction batch with
  | nil => intro s; rfl
  | cons event rest ih => intro s; rw [act_loop_cons]; exact ih _

theorem act_loop_append (c : Collab X R Id Fps) (pre post : List Json) :
    ∀ s : EnvState X R Id Fps,
      act_loop c (pre ++ post) s = act_loop c post (act_loop c pre s).2 := by
  induction pre with
  | nil => intro s; rfl
  | cons event rest ih =>
    intro s
    rw [List.cons_append, act_loop_cons, act_loop_cons, ih]

theorem act_event_handler_calls (c : Collab X R Id Fps) (event : Json)
    (s : EnvState X R Id Fps) :
    handler_calls (act_event c event s).2.trace =
      handler_calls s.trace ++ (route event).toList ∧
    other_calls (act_event c event s).2.trace = other_calls s.trace := by
  obtain ⟨_, logs, hlogs, ht⟩ := act_event_trace c event s
  have hr : ∀ k ∈ (route event : Option (Call Id Fps)).toList,
      is_handler_call k = true := by
    intro k hk
    unfold route at hk
    split at hk
    · split_ifs at hk <;> simp at hk <;> subst hk <;> rfl
    · simp at hk
  have e1 : ((route event : Option (Call Id Fps)).toList).filter is_handler_call =
      (route event).toList := List.filter_eq_self.2 hr
  have e2 : logs.filter is_handler_call = [] :=
    List.filter_eq_nil_iff.2 (fun k hk => by simp [(hlogs k hk).2])
  have e3 : ((route event : Option (Call Id Fps)).toList).filter
      (fun k => !is_handler_call k && !is_error_log k) = [] :=
    List.filter_eq_nil_iff.2 (fun k hk => by simp [hr k hk])
  have e4 : logs.filter (fun k => !is_handler_call k && !is_error_log k) = [] :=
    List.filter_eq_nil_iff.2 (fun k hk => by simp [(hlogs k hk).1])
  rw [ht]
  constructor
  · simp only [handler_calls, List.filter_append, e1, e2, List.append_nil]
  · simp only [other_calls, List.filter_append, e3, e4, List.append_nil]

theorem act_loop_handler_calls (c : Collab X R Id Fps) (batch : List Json) :
    ∀ s : EnvState X R Id Fps,
      handler_calls (act_loop c batch s).2.trace =
        handler_calls s.trace ++ batch.filterMap route ∧
      other_calls (act_loop c batch s).2.trace = other_calls s.trace := by
  induction batch with
  | nil => intro s; simp [act_loop, pure, EnvM.ret]
  | cons event rest ih =>
    intro s
    rw [act_loop_cons]
    obtain ⟨h1, h2⟩ := ih (act_event c event s).2
    obtain ⟨h3, h4⟩ := act_event_handler_calls c event s
    rw [h1, h2, h3, h4]
    refine ⟨?_, rfl⟩
    cases hr : (route event : Option (Call Id Fps)) <;> simp [List.filterMap_cons, hr]

theorem act_loop_trace_extends (c : Collab X R Id Fps) (batch : List Json) :
    ∀ s : EnvState X R Id Fps, ∃ added : List (Call Id Fps),
      (act_loop c batch s).2.trace = s.trace ++ added := by
  induction batch with
  | nil => intro s; exact ⟨[], by simp [act_loop, pure, EnvM.ret]⟩
  | cons event rest ih =>
    intro s
    obtain ⟨_, logs, _, ht⟩ := act_event_trace c event s
    obtain ⟨added, ha⟩ := ih (act_event c event s).2
    exact ⟨((route event).toList ++ logs) ++ added, by
      rw [act_loop_cons, ha, ht, List.append_assoc]⟩

theorem act_event_guard (c : Collab X R Id Fps) (event : Json) (s : EnvState X R Id Fps)
    (b : Bool) :
    act_event c event { s with owns_lock := b } =
      ((act_event c event s).1, { (act_event c event s).2 with owns_lock := b }) := by
  rcases ht : leading_tag event with e | tag
  · simp [act_event, act_try, EnvM.tryCatchAll, bind, EnvM.andThen, liftExcept,
      EnvM.raise, ht, log, record]
  · by_cases hj : starts_with tag "Joystick" = true
    · rcases hc : c.joystick_set event s.world with ⟨x1, _ | e⟩ <;>
        simp [act_event, act_try, EnvM.tryCatchAll, bind, EnvM.andThen, liftExcept,
          EnvM.ret, ht, hj, callWorld, hc, log, record]
    · by_cases hg : starts_with tag "GameSettings" = true
      · rcases hc : c.change_settings event s.world with ⟨x1, _ | e⟩ <;>
          simp [act_event, act_try, EnvM.tryCatchAll, bind, EnvM.andThen, liftExcept,
            EnvM.ret, ht, hj, hg, callWorld, hc, log, record]
      · simp [act_event, act_try, EnvM.tryCatchAll, bind, EnvM.andThen, liftExcept,
          EnvM.ret, ht, hj, hg, pure]

theorem act_loop_guard (c : Collab X R Id Fps) (batch : List Json) (b : Bool) :
    ∀ s : EnvState X R Id Fps,
      act_loop c batch { s with owns_lock := b } =
        ((act_loop c batch s).1, { (act_loop c batch s).2 with owns_lock := b }) := by
  induction batch with
  | nil => intro s; rfl
  | cons event rest ih =>
    intro s
    rw [act_loop_cons, act_loop_cons, act_event_guard]
    exact ih _

theorem act_guard (c : Collab X R Id Fps) (agent_request : Json) (s : EnvState X R Id Fps)
    (b : Bool) :
    act c agent_request { s with owns_lock := b } =
      ((act c agent_request s).1, { (act c agent_request s).2 with owns_lock := b }) := by
  rcases ha : action_of agent_request with e | action
  · simp [act, bind, EnvM.andThen, liftExcept, EnvM.raise, ha]
  · simp only [act, bind, EnvM.andThen, liftExcept, EnvM.ret, ha]
    exact act_loop_guard c _ b s

/-! ### Lemmas on the statements of the reset sequence -/

/-- The member `Env::reset` is its test followed by its seven statements under
the guard. -/
theorem reset_as_statements (c : Collab X R Id Fps) (agent_request : Json)
    (s : EnvState X R Id Fps) :
    reset c agent_request s =
      if resetting s then log .warning "Concurrent: reset request, ignoring" s
      else lock_guard (run_statements (reset_statements c agent_request)) s := by
  by_cases hs : resetting s = true
  · simp [reset, hs]
  · have hs' : resetting s = false := by simpa using hs
    simp only [reset, hs']
    congr 1
    simp only [run_statements, reset_statements, bind, pure, EnvM.andThen_ret,
      EnvM.andThen_assoc]

/-- Two contexts that both pass the test of line 47 before either locks both
run lines 53 to 61, one after the other. -/
theorem run_schedule_race (c : Collab X R Id Fps) (request_a request_b : Json)
    (s : EnvState X R Id Fps) (hs : resetting s = false) :
    run_schedule c [0, 1, 0, 1] [⟨request_a, .entry⟩, ⟨request_b, .entry⟩] s =
      ([⟨request_a, .exited (reset c request_a s).1⟩,
        ⟨request_b, .exited (reset c request_b (reset c request_a s).2).1⟩],
       (reset c request_b (reset c request_a s).2).2) := by
  have ha : lock_guard (run_statements (reset_statements c request_a)) s =
      reset c request_a s := by
    rw [reset_as_statements]; simp [hs]
  have hb : lock_guard (run_statements (reset_statements c request_b)) (reset c request_a s).2 =
      reset c request_b (reset c request_a s).2 := by
    rw [reset_as_statements c request_b]
    simp [reset_guard_after c request_a s hs, resetting]
  simp [run_schedule, step_context, hs, ha, hb]

/-- A context that runs alone makes a call of `Env::reset`. -/
theorem run_schedule_alone (c : Collab X R Id Fps) (agent_request : Json)
    (s : EnvState X R Id Fps) :
    run_schedule c [0, 0] [⟨agent_request, .entry⟩] s =
      ([⟨agent_request, .exited (reset c agent_request s).1⟩], (reset c agent_request s).2) := by
  by_cases hs : resetting s = true
  · simp [run_schedule, step_context, hs, reset_as_statements]
  · have hs' : resetting s = false := by simpa using hs
    simp [run_schedule, step_context, hs', reset_as_statements]

/-! ### The claims -/

/-- C1: from a state in which `resetting()` is false, when none of the seven
collaborator calls raises, `Env::reset` returns and has made exactly the calls
before_reset, send_reset_reply(request, e0), send_env_describe(envId,
"resetting", e0, fps), reset_game, rewarder.reset, send_env_describe(envId,
"running", e1, fps), after_reset, in this order; e0 and e1 are the episode ids
the rewarder reports before and after `rewarder.reset()`, fps the frame rate it
reports at the time of each announcement. -/
theorem reset_effect_trace (c : Collab X R Id Fps) (agent_request : Json)
    (s : EnvState X R Id Fps) (x1 x2 x3 x4 x5 x6 : X) (r1 : R)
    (hs : resetting s = false)
    (h1 : c.before_reset s.world = (x1, .returned))
    (h2 : c.send_reset_reply agent_request (c.get_episode_id s.rewarder) x1 = (x2, .returned))
    (h3 : c.send_env_describe s.env_id_ "resetting" (c.get_episode_id s.rewarder)
      (c.get_frames_per_second s.rewarder) x2 = (x3, .returned))
    (h4 : c.reset_game x3 = (x4, .returned))
    (h5 : c.rewarder_reset s.rewarder = (r1, .returned))
    (h6 : c.send_env_describe s.env_id_ "running" (c.get_episode_id r1)
      (c.get_frames_per_second r1) x4 = (x5, .returned))
    (h7 : c.after_reset x5 = (x6, .returned)) :
    reset c agent_request s =
      (.ok (), { s with
        world := x6, rewarder := r1, owns_lock := false,
        trace := s.trace ++
          [.before_reset,
           .send_reset_reply agent_request (c.get_episode_id s.rewarder),
           .send_env_describe s.env_id_ "resetting" (c.get_episode_id s.rewarder)
             (c.get_frames_per_second s.rewarder),
           .reset_game,
           .rewarder_reset,
           .send_env_describe s.env_id_ "running" (c.get_episode_id r1)
             (c.get_frames_per_second r1),
           .after_reset] }) := by
  have hs' : s.owns_lock = false := hs
  simp [reset, hs, hs', lock_guard, lock, unlock, bind, EnvM.andThen, callWorld, callRewarder,
    send_reset_reply, send_env_describe, get_episode_id, get_frames_per_second, read_env_id,
    h1, h2, h3, h4, h5, h6, h7]

/-- Witness of C1: the counting collaborators, episode 7, guard free. -/
theorem reset_effect_trace_witness :
    resetting (demoState false) = false ∧
    reset demo (.str "reset-1") (demoState false) =
      (.ok (), { demoState false with
        world := 6, rewarder := 8, owns_lock := false,
        trace := [] ++
          [.before_reset,
           .send_reset_reply (.str "reset-1") 7,
           .send_env_describe "flashgames.DuskDrive-v0" "resetting" 7 60,
           .reset_game,
           .rewarder_reset,
           .send_env_describe "flashgames.DuskDrive-v0" "running" 8 60,
           .after_reset] }) :=
  ⟨rfl, reset_effect_trace demo (.str "reset-1") (demoState false) 1 2 3 4 5 6 8
    rfl rfl rfl rfl rfl rfl rfl rfl⟩

/-- C2: while the guard is held, `Env::reset` returns normally and its only
effect is one warning log record: no collaborator is called and the guard stays
held; any number of reset requests handled while the guard is held add one
warning each and nothing else.  So a reset during which further requests come
in ends as it would alone and makes the calls of one reset sequence only: its
trace differs from that of the reset alone by the warnings. -/
theorem reset_dropped_while_resetting (c : Collab X R Id Fps) (s : EnvState X R Id Fps)
    (hs : resetting s = true) :
    (∀ agent_request : Json,
      reset c agent_request s =
        (.ok (), { s with
          trace := s.trace ++ [.log .warning "Concurrent: reset request, ignoring"] }) ∧
      resetting (reset c agent_request s).2 = true) ∧
    (∀ requests : List Json,
      reset_all c requests s =
        (.ok (), { s with
          trace := s.trace ++
            List.replicate requests.length
              (.log .warning "Concurrent: reset request, ignoring") }) ∧
      resetting (reset_all c requests s).2 = true) ∧
    (∀ (agent_request : Json) (arrivals : List (List Json)) (s0 : EnvState X R Id Fps),
      resetting s0 = false →
      (reset_in_flight c agent_request arrivals s0).1 = (reset c agent_request s0).1 ∧
      accepted_calls (reset_in_flight c agent_request arrivals s0).2.trace =
        accepted_calls (reset c agent_request s0).2.trace ∧
      (reset_in_flight c agent_request arrivals s0).2.world =
        (reset c agent_request s0).2.world ∧
      (reset_in_flight c agent_request arrivals s0).2.rewarder =
        (reset c agent_request s0).2.rewarder ∧
      resetting (reset_in_flight c agent_request arrivals s0).2 = false) := by
  refine ⟨fun agent_request => ?_, fun requests => ?_, fun agent_request arrivals s0 h0 => ?_⟩
  · rw [reset_when_resetting c agent_request s hs]
    exact ⟨rfl, hs⟩
  · rw [reset_all_when_resetting c requests s hs]
    exact ⟨rfl, hs⟩
  · obtain ⟨t1, h1, h2⟩ := reset_in_flight_sim c agent_request arrivals s0 h0
    rw [h2]
    exact ⟨rfl, h1, rfl, rfl, reset_guard_after c agent_request s0 h0⟩

/-- Witness of C2: three requests against a held guard; and a reset during
which three requests come in, two before `reset_game` and one before
`after_reset`. -/
theorem reset_dropped_while_resetting_witness :
    resetting (demoState true) = true ∧
    (reset_all demo [.null, .str "reset-2", .null] (demoState true)).2.trace =
      [.log .warning "Concurrent: reset request, ignoring",
       .log .warning "Concurrent: reset request, ignoring",
       .log .warning "Concurrent: reset request, ignoring"] ∧
    resetting (demoState false) = false ∧
    accepted_calls (reset_in_flight demo (.str "reset-1")
      [[], [], [], [.str "reset-2", .null], [], [], [.str "reset-3"]] (demoState false)).2.trace =
      [.before_reset,
       .send_reset_reply (.str "reset-1") 7,
       .send_env_describe "flashgames.DuskDrive-v0" "resetting" 7 60,
       .reset_game,
       .rewarder_reset,
       .send_env_describe "flashgames.DuskDrive-v0" "running" 8 60,
       .after_reset] :=
  ⟨rfl, by
    rw [((reset_dropped_while_resetting demo (demoState true) rfl).2.1
      [.null, .str "reset-2", .null]).1]
    rfl, rfl, by
    rw [((reset_dropped_while_resetting demo (demoState true) rfl).2.2 (.str "reset-1")
      [[], [], [], [.str "reset-2", .null], [], [], [.str "reset-3"]] (demoState false) rfl).2.1]
    rfl⟩

/-- C3: from a state in which `resetting()` is false, however `Env::reset`
exits (a raise in `reset_game` or in any other step included), `resetting()`
is false again afterwards; and the next reset request is not dropped: it starts
with before_reset, runs the seven calls in order as far as the collaborators
let it, all seven when it returns, and releases the guard again. -/
theorem reset_releases_guard (c : Collab X R Id Fps) (agent_request next_request : Json)
    (s : EnvState X R Id Fps) (hs : resetting s = false) :
    resetting (reset c agent_request s).2 = false ∧
    (∃ k, 1 ≤ k ∧ k ≤ 7 ∧
      (reset c next_request (reset c agent_request s).2).2.trace =
        (reset c agent_request s).2.trace ++
          (reset_sequence c next_request (reset c agent_request s).2.env_id_
            (reset c agent_request s).2.rewarder
            (c.rewarder_reset (reset c agent_request s).2.rewarder).1).take k ∧
      ((reset c next_request (reset c agent_request s).2).1 = .ok () → k = 7)) ∧
    resetting (reset c next_request (reset c agent_request s).2).2 = false := by
  have h1 : resetting (reset c agent_request s).2 = false := reset_guard_after c agent_request s hs
  refine ⟨h1, ?_, reset_guard_after c next_request _ h1⟩
  obtain ⟨k, hk1, hk7, ht, hok⟩ := reset_trace_take c next_request _ h1
  exact ⟨k, hk1, hk7, ht, fun h => (hok h).1⟩

/-- Witness of C3: the game fails to come up in the first reset and comes up
in the second. -/
theorem reset_releases_guard_witness :
    resetting (demoState false) = false ∧
    (reset (demoFailing 4) (.str "reset-1") (demoState false)).1 = .raised "game not ready" ∧
    resetting (reset (demoFailing 4) (.str "reset-1") (demoState false)).2 = false ∧
    (reset (demoFailing 4) (.str "reset-2")
      (reset (demoFailing 4) (.str "reset-1") (demoState false)).2).1 = .ok () ∧
    (reset (demoFailing 4) (.str "reset-2")
      (reset (demoFailing 4) (.str "reset-1") (demoState false)).2).2.trace =
      [.before_reset,
       .send_reset_reply (.str "reset-1") 7,
       .send_env_describe "flashgames.DuskDrive-v0" "resetting" 7 60,
       .reset_game,
       .before_reset,
       .send_reset_reply (.str "reset-2") 7,
       .send_env_describe "flashgames.DuskDrive-v0" "resetting" 7 60,
       .reset_game,
       .rewarder_reset,
       .send_env_describe "flashgames.DuskDrive-v0" "running" 8 60,
       .after_reset] :=
  ⟨rfl, rfl,
    (reset_releases_guard (demoFailing 4) (.str "reset-1") (.str "reset-2")
      (demoState false) rfl).1,
    rfl, rfl⟩

/-- C4: `Env::act` returns; the calls it makes on the joystick and on
`change_settings` are, in batch order, those the dispatch table gives event by
event (one call at most for an event, on the joystick for a tag starting with
"Joystick", else on `change_settings` for a tag starting with "GameSettings",
else none), and beside them it adds error logs only; an event whose tag starts
with neither marker leaves no trace at all.  "Joystick0:Button0" goes to the
joystick once, "GameSettingsDifficulty" to `change_settings` once, "Unrelated"
to neither. -/
theorem act_routes_by_tag (c : Collab X R Id Fps) (batch : List Json)
    (s : EnvState X R Id Fps) :
    (act c (action_request batch) s).1 = .ok () ∧
    handler_calls (act c (action_request batch) s).2.trace =
      handler_calls s.trace ++ batch.filterMap route ∧
    other_calls (act c (action_request batch) s).2.trace = other_calls s.trace ∧
    (∀ (event : Json) (tag : String), leading_tag event = .ok tag →
      (starts_with tag "Joystick" = true →
        handler_calls (act c (action_request [event]) s).2.trace =
          handler_calls s.trace ++ [.joystick_set event]) ∧
      (starts_with tag "Joystick" = false → starts_with tag "GameSettings" = true →
        handler_calls (act c (action_request [event]) s).2.trace =
          handler_calls s.trace ++ [.change_settings event]) ∧
      (starts_with tag "Joystick" = false → starts_with tag "GameSettings" = false →
        act c (action_request [event]) s = (.ok (), s))) ∧
    (∀ payload : List Json,
      handler_calls (act c (action_request [.arr (.str "Joystick0:Button0" :: payload)]) s).2.trace =
        handler_calls s.trace ++ [.joystick_set (.arr (.str "Joystick0:Button0" :: payload))] ∧
      handler_calls
          (act c (action_request [.arr (.str "GameSettingsDifficulty" :: payload)]) s).2.trace =
        handler_calls s.trace ++
          [.change_settings (.arr (.str "GameSettingsDifficulty" :: payload))] ∧
      act c (action_request [.arr (.str "Unrelated" :: payload)]) s = (.ok (), s)) := by
  have hneither : ∀ (event : Json) (tag : String), leading_tag event = .ok tag →
      starts_with tag "Joystick" = false → starts_with tag "GameSettings" = false →
      act c (action_request [event]) s = (.ok (), s) := by
    intro event tag ht hj hg
    rw [act_action_request]
    simp [act_loop, act_event, act_try, EnvM.tryCatchAll, bind, EnvM.andThen, liftExcept,
      EnvM.ret, ht, hj, hg, pure]
  have hone : ∀ event : Json,
      handler_calls (act c (action_request [event]) s).2.trace =
        handler_calls s.trace ++ (route event).toList := by
    intro event
    rw [act_action_request, (act_loop_handler_calls c [event] s).1]
    cases hr : (route event : Option (Call Id Fps)) <;> simp [hr]
  refine ⟨?_, ?_, ?_, ?_, ?_⟩
  · rw [act_action_request]; exact act_loop_returns c batch s
  · rw [act_action_request]; exact (act_loop_handler_calls c batch s).1
  · rw [act_action_request]; exact (act_loop_handler_calls c batch s).2
  · intro event tag ht
    refine ⟨fun hj => ?_, fun hj hg => ?_, hneither event tag ht⟩
    · rw [hone]; simp [route, ht, hj]
    · rw [hone]; simp [route, ht, hj, hg]
  · intro payload
    refine ⟨?_, ?_, hneither _ "Unrelated" rfl (by decide) (by decide)⟩
    · rw [hone]
      have : starts_with "Joystick0:Button0" "Joystick" = true := by decide
      simp [route, leading_tag, Json.index0, Json.asString, this]
    · rw [hone]
      have h1 : starts_with "GameSettingsDifficulty" "Joystick" = false := by decide
      have h2 : starts_with "GameSettingsDifficulty" "GameSettings" = true := by decide
      simp [route, leading_tag, Json.index0, Json.asString, h1, h2]

/-- Witness of C4: the three tags of the dispatch table in one batch, with
handlers that raise. -/
theorem act_routes_by_tag_witness :
    handler_calls (act demoRaising
      (action_request
        [.arr [.str "Joystick0:Button0"], .arr [.str "GameSettingsDifficulty"],
         .arr [.str "Unrelated"]])
      (demoState true)).2.trace =
      [] ++ [.joystick_set (.arr [.str "Joystick0:Button0"]),
        .change_settings (.arr [.str "GameSettingsDifficulty"])] ∧
    leading_tag (.arr [.str "Unrelated"]) = .ok "Unrelated" ∧
    starts_with "Unrelated" "Joystick" = false ∧
    starts_with "Unrelated" "GameSettings" = false ∧
    act demoRaising (action_request [.arr [.str "Unrelated"]]) (demoState true) =
      (.ok (), demoState true) :=
  ⟨(act_routes_by_tag demoRaising
      [.arr [.str "Joystick0:Button0"], .arr [.str "GameSettingsDifficulty"],
       .arr [.str "Unrelated"]] (demoState true)).2.1,
    rfl, rfl, rfl,
    ((act_routes_by_tag demoRaising [] (demoState true)).2.2.2.1
      (.arr [.str "Unrelated"]) "Unrelated" rfl).2.2 rfl rfl⟩

/-- C5: when the handling of an event raises -- in the tag extraction, in the
joystick or in `change_settings` -- `Env::act` still returns; the failure is
logged at error level with its diagnostic text, and the loop goes on with the
events after it from the state the failure left; the events before and after
it are routed as the dispatch table says.  In the batch [["Joystick.A", 1],
["Malformed"], ["GameSettings.Difficulty", "hard"]] the first event reaches
the joystick and the third `change_settings`, whatever fails. -/
theorem act_isolates_failures (c : Collab X R Id Fps) (pre post : List Json) (event : Json)
    (s s2 : EnvState X R Id Fps) (e : Err)
    (hfail : act_try c event (act_loop c pre s).2 = (.raised e, s2)) :
    (act c (action_request (pre ++ event :: post)) s).1 = .ok () ∧
    act c (action_request (pre ++ event :: post)) s =
      act_loop c post
        { s2 with trace := s2.trace ++ [.log .error ("Error processing act request\n" ++ e)] } ∧
    (∃ later : List (Call Id Fps),
      (act c (action_request (pre ++ event :: post)) s).2.trace =
        s2.trace ++ .log .error ("Error processing act request\n" ++ e) :: later) ∧
    handler_calls (act c (action_request (pre ++ event :: post)) s).2.trace =
      handler_calls s.trace ++ pre.filterMap route ++ (route event).toList ++
        post.filterMap route ∧
    handler_calls (act c (action_request
        [.arr [.str "Joystick.A", .int 1], .arr [.str "Malformed"],
         .arr [.str "GameSettings.Difficulty", .str "hard"]]) s).2.trace =
      handler_calls s.trace ++
        [.joystick_set (.arr [.str "Joystick.A", .int 1]),
         .change_settings (.arr [.str "GameSettings.Difficulty", .str "hard"])] := by
  have hcont : act c (action_request (pre ++ event :: post)) s =
      act_loop c post
        { s2 with trace := s2.trace ++ [.log .error ("Error processing act request\n" ++ e)] } := by
    rw [act_action_request, act_loop_append, act_loop_cons]
    simp [act_event, EnvM.tryCatchAll, hfail, log, record]
  refine ⟨?_, hcont, ?_, ?_, ?_⟩
  · rw [act_action_request]; exact act_loop_returns c _ s
  · obtain ⟨added, ha⟩ := act_loop_trace_extends c post
      { s2 with trace := s2.trace ++ [.log .error ("Error processing act request\n" ++ e)] }
    exact ⟨added, by rw [hcont, ha]; simp⟩
  · rw [act_action_request, (act_loop_handler_calls c _ s).1]
    cases hr : (route event : Option (Call Id Fps)) <;>
      simp [List.filterMap_append, List.filterMap_cons, hr]
  · rw [act_action_request, (act_loop_handler_calls c _ s).1]
    rfl

/-- Witness of C5: the second event has an array where its tag should be, so
the tag extraction raises. -/
theorem act_isolates_failures_witness :
    act_try demo (.arr [.arr [.str "Malformed"]])
      (act_loop demo [.arr [.str "Joystick.A", .int 1]] (demoState false)).2 =
      (.raised "Type is not convertible to string",
        { demoState false with
          world := 1, trace := [.joystick_set (.arr [.str "Joystick.A", .int 1])] }) ∧
    (act demo (action_request
        ([.arr [.str "Joystick.A", .int 1]] ++ .arr [.arr [.str "Malformed"]] ::
          [.arr [.str "GameSettings.Difficulty", .str "hard"]])) (demoState false)).2.trace =
      [.joystick_set (.arr [.str "Joystick.A", .int 1]),
       .log .error "Error processing act request\nType is not convertible to string",
       .change_settings (.arr [.str "GameSettings.Difficulty", .str "hard"])] :=
  ⟨rfl, by
    rw [(act_isolates_failures demo [.arr [.str "Joystick.A", .int 1]]
      [.arr [.str "GameSettings.Difficulty", .str "hard"]] (.arr [.arr [.str "Malformed"]])
      (demoState false) _ "Type is not convertible to string" rfl).2.1]
    rfl⟩

/-- C6: when the constructor returns and one reset after it returns, the trace
holds exactly three status announcements, "running" (construction),
"resetting", "running" (after the reset), in this order and all with the
controller's envId; with a rewarder whose reset rolls the episode id, the
episode id of the first differs from that of the last. -/
theorem status_ordering (c : Collab X R Id Fps) (envId : String) (r0 : R) (x0 : X)
    (agent_request : Json) (hroll : RollsEpisode c)
    (hctor : (Env c envId r0 x0).1 = .ok ())
    (hreset : (reset c agent_request (Env c envId r0 x0).2).1 = .ok ()) :
    announcements (reset c agent_request (Env c envId r0 x0).2).2.trace =
      [(envId, "running", c.get_episode_id r0, c.get_frames_per_second r0),
       (envId, "resetting", c.get_episode_id r0, c.get_frames_per_second r0),
       (envId, "running", c.get_episode_id (c.rewarder_reset r0).1,
         c.get_frames_per_second (c.rewarder_reset r0).1)] ∧
    c.get_episode_id r0 ≠ c.get_episode_id (c.rewarder_reset r0).1 := by
  obtain ⟨ht, ho, hr, he⟩ := Env_returned c envId r0 x0 hctor
  obtain ⟨ht2, hret⟩ := reset_returned c agent_request _ ho hreset
  rw [hr] at hret
  refine ⟨?_, fun h => hroll r0 hret h.symm⟩
  rw [ht2, ht, hr, he]
  simp [reset_sequence, announcements]

/-- Witness of C6: the counting rewarder goes from episode 7 to episode 8. -/
theorem status_ordering_witness :
    RollsEpisode demo ∧
    (Env demo "flashgames.DuskDrive-v0" 7 0).1 = .ok () ∧
    (reset demo (.str "reset-1") (Env demo "flashgames.DuskDrive-v0" 7 0).2).1 = .ok () ∧
    announcements (reset demo (.str "reset-1")
      (Env demo "flashgames.DuskDrive-v0" 7 0).2).2.trace =
      [("flashgames.DuskDrive-v0", "running", 7, 60),
       ("flashgames.DuskDrive-v0", "resetting", 7, 60),
       ("flashgames.DuskDrive-v0", "running", 8, 60)] ∧
    (7 : Nat) ≠ 8 :=
  have hroll : RollsEpisode demo := fun r _ => Nat.succ_ne_self r
  ⟨hroll, rfl, rfl,
    status_ordering demo "flashgames.DuskDrive-v0" 7 0 (.str "reset-1") hroll rfl rfl⟩

/-- Counterexample of C7: the constructor has announced "running"; in the
reset after it `reset_game` raises; when `reset` has exited the guard is
released (the state is Running) while the status announced last is
"resetting". -/
theorem stale_status_after_failed_reset :
    ¬ ∀ (c : Collab Nat Nat Nat Nat) (agent_request : Json) (s : EnvState Nat Nat Nat Nat),
      resetting s = false →
      (statuses (reset c agent_request s).2.trace).getLast? =
        some (lifecycle (reset c agent_request s).2) := by
  intro h
  have h1 := h (demoFailing 8) (.str "reset-1") (Env (demoFailing 8) "flashgames.DuskDrive-v0" 7 0).2 rfl
  have h2 : (statuses (reset (demoFailing 8) (.str "reset-1")
      (Env (demoFailing 8) "flashgames.DuskDrive-v0" 7 0).2).2.trace).getLast? =
      some "resetting" := rfl
  have h3 : lifecycle (reset (demoFailing 8) (.str "reset-1")
      (Env (demoFailing 8) "flashgames.DuskDrive-v0" 7 0).2).2 = "running" := rfl
  rw [h2, h3] at h1
  exact absurd h1 (by decide)

/-- C7, amended: a dropped reset announces nothing and leaves `resetting()`
true; an accepted reset leaves `resetting()` false when it exits and announces,
in order, nothing, "resetting", or "resetting" and then "running" -- both when
it returns normally, and then the status announced last is the lifecycle state
at exit. -/
theorem status_announced_by_reset (c : Collab X R Id Fps) (agent_request : Json)
    (s : EnvState X R Id Fps) :
    (resetting s = false →
      resetting (reset c agent_request s).2 = false ∧
      (statuses (reset c agent_request s).2.trace = statuses s.trace ∨
       statuses (reset c agent_request s).2.trace = statuses s.trace ++ ["resetting"] ∨
       statuses (reset c agent_request s).2.trace =
         statuses s.trace ++ ["resetting", "running"]) ∧
      ((reset c agent_request s).1 = .ok () →
        statuses (reset c agent_request s).2.trace =
          statuses s.trace ++ ["resetting", "running"] ∧
        (statuses (reset c agent_request s).2.trace).getLast? =
          some (lifecycle (reset c agent_request s).2))) ∧
    (resetting s = true →
      (reset c agent_request s).1 = .ok () ∧
      statuses (reset c agent_request s).2.trace = statuses s.trace ∧
      resetting (reset c agent_request s).2 = true) := by
  constructor
  · intro hs
    have hg : resetting (reset c agent_request s).2 = false := reset_guard_after c agent_request s hs
    refine ⟨hg, ?_, fun hret => ?_⟩
    · obtain ⟨k, hk1, hk7, ht, _⟩ := reset_trace_take c agent_request s hs
      rw [ht, statuses_append]
      interval_cases k <;> simp [reset_sequence, statuses, announcements]
    · have ht : statuses (reset c agent_request s).2.trace =
          statuses s.trace ++ ["resetting", "running"] := by
        rw [(reset_returned c agent_request s hs hret).1, statuses_append]
        simp [reset_sequence, statuses, announcements]
      refine ⟨ht, ?_⟩
      rw [ht]
      simp [lifecycle, hg]
  · intro hs
    rw [reset_when_resetting c agent_request s hs, statuses_append]
    exact ⟨rfl, by simp [statuses, announcements], hs⟩

/-- Witness of C7, amended: a reset that returns, after construction. -/
theorem status_announced_by_reset_witness :
    resetting (Env demo "flashgames.DuskDrive-v0" 7 0).2 = false ∧
    (reset demo (.str "reset-1") (Env demo "flashgames.DuskDrive-v0" 7 0).2).1 = .ok () ∧
    statuses (reset demo (.str "reset-1") (Env demo "flashgames.DuskDrive-v0" 7 0).2).2.trace =
      ["running"] ++ ["resetting", "running"] ∧
    resetting (reset demo (.str "reset-1") (Env demo "flashgames.DuskDrive-v0" 7 0).2).2 = false :=
  ⟨rfl, rfl,
    (((status_announced_by_reset demo (.str "reset-1")
      (Env demo "flashgames.DuskDrive-v0" 7 0).2).1 rfl).2.2 rfl).1,
    ((status_announced_by_reset demo (.str "reset-1")
      (Env demo "flashgames.DuskDrive-v0" 7 0).2).1 rfl).1⟩

/-- C8: in every controller state, the guard held or not, when
`rewarder.hard_reset()` returns, `Env::_when_no_clients` has called
`rewarder.hard_reset()` and then the `when_no_clients()` hook, once each, in
this order, and nothing else: no announcement, no reply, no other call of the
derived class; the guard and the rest of the controller are as before.  The
base-class hook returns and changes nothing. -/
theorem when_no_clients_effects (c : Collab X R Id Fps) (s : EnvState X R Id Fps) (r1 : R)
    (h : c.rewarder_hard_reset s.rewarder = (r1, .returned)) :
    (_when_no_clients c s).2 =
      { s with
        rewarder := r1, world := (c.when_no_clients s.world).1,
        trace := s.trace ++ [.rewarder_hard_reset, .when_no_clients] } ∧
    ((_when_no_clients c s).1 = .ok () ↔ (c.when_no_clients s.world).2 = .returned) ∧
    resetting (_when_no_clients c s).2 = resetting s ∧
    announcements (_when_no_clients c s).2.trace = announcements s.trace ∧
    replies_sent (_when_no_clients c s).2.trace = replies_sent s.trace ∧
    (∀ x : X, when_no_clients x = (x, .returned)) ∧
    (c.when_no_clients = when_no_clients →
      _when_no_clients c s =
        (.ok (), { s with
          rewarder := r1,
          trace := s.trace ++ [.rewarder_hard_reset, .when_no_clients] })) := by
  have hstate : (_when_no_clients c s).2 =
      { s with
        rewarder := r1, world := (c.when_no_clients s.world).1,
        trace := s.trace ++ [.rewarder_hard_reset, .when_no_clients] } := by
    rcases hw : c.when_no_clients s.world with ⟨x1, _ | e⟩ <;>
      simp [_when_no_clients, bind, EnvM.andThen, callRewarder, callWorld, h, hw]
  refine ⟨hstate, ?_, ?_, ?_, ?_, fun x => rfl, fun hbase => ?_⟩
  · rcases hw : c.when_no_clients s.world with ⟨x1, _ | e⟩ <;>
      simp [_when_no_clients, bind, EnvM.andThen, callRewarder, callWorld, h, hw]
  · rw [hstate]; rfl
  · rw [hstate]; simp [announcements_append, announcements]
  · rw [hstate]; simp [replies_sent_append, replies_sent]
  · simp [_when_no_clients, bind, EnvM.andThen, callRewarder, callWorld, h, hbase,
      when_no_clients]

/-- Witness of C8: the hook fires while a reset is in flight. -/
theorem when_no_clients_effects_witness :
    demo.rewarder_hard_reset (demoState true).rewarder = (0, .returned) ∧
    _when_no_clients demo (demoState true) =
      (.ok (), { demoState true with
        rewarder := 0, trace := [] ++ [.rewarder_hard_reset, .when_no_clients] }) ∧
    resetting (_when_no_clients demo (demoState true)).2 = true :=
  ⟨rfl, (when_no_clients_effects demo (demoState true) 0 rfl).2.2.2.2.2.2 rfl, rfl⟩

/-- C9: `Env::act` and `Env::_act` neither read nor write the reset guard: run
on two states that differ only in the guard, they end the same way and leave
the same state up to the guard, which each leaves as it found it; the calls
made on the joystick and on `change_settings` are the same, and a batch handled
while a reset is in flight is routed in full. -/
theorem act_ignores_guard (c : Collab X R Id Fps) (agent_request : Json)
    (s : EnvState X R Id Fps) (b : Bool) :
    act c agent_request { s with owns_lock := b } =
      ((act c agent_request s).1, { (act c agent_request s).2 with owns_lock := b }) ∧
    _act c agent_request { s with owns_lock := b } =
      ((_act c agent_request s).1, { (_act c agent_request s).2 with owns_lock := b }) ∧
    (act c agent_request { s with owns_lock := b }).2.trace = (act c agent_request s).2.trace ∧
    resetting (act c agent_request s).2 = resetting s ∧
    (∀ batch : List Json,
      (act c (action_request batch) { s with owns_lock := true }).1 = .ok () ∧
      handler_calls (act c (action_request batch) { s with owns_lock := true }).2.trace =
        handler_calls s.trace ++ batch.filterMap route) := by
  have h := act_guard c agent_request s
  refine ⟨h b, h b, by rw [h b], ?_, fun batch => ?_⟩
  · have h2 := h s.owns_lock
    have h3 : ({ s with owns_lock := s.owns_lock } : EnvState X R Id Fps) = s := rfl
    rw [h3] at h2
    have h4 := congrArg (fun p => resetting p.2) h2
    simpa [resetting] using h4
  · rw [act_action_request]
    exact ⟨act_loop_returns c batch _, (act_loop_handler_calls c batch _).1⟩

/-- C10: a reset with no request (the default null value) that returns makes
the same seven calls as a reset with a request makes, the reply call carrying
the null value: the calls other than the reply call are the same in both; the
reply step puts no reply on the wire. -/
theorem reset_without_request (c : Collab X R Id Fps) (s : EnvState X R Id Fps)
    (hs : resetting s = false) (hret : (reset c Json.null s).1 = .ok ()) :
    (reset c) s = reset c Json.null s ∧
    (reset c Json.null s).2.trace =
      s.trace ++ reset_sequence c Json.null s.env_id_ s.rewarder
        (c.rewarder_reset s.rewarder).1 ∧
    (∀ agent_request : Json, (reset c agent_request s).1 = .ok () →
      (reset c agent_request s).2.trace =
        s.trace ++ reset_sequence c agent_request s.env_id_ s.rewarder
          (c.rewarder_reset s.rewarder).1 ∧
      ((reset c agent_request s).2.trace).filter (fun k => !is_reply_call k) =
        ((reset c Json.null s).2.trace).filter (fun k => !is_reply_call k)) ∧
    replies_sent (reset c Json.null s).2.trace = replies_sent s.trace := by
  have h0 := (reset_returned c Json.null s hs hret).1
  refine ⟨rfl, h0, fun agent_request hreq => ?_, ?_⟩
  · have h1 := (reset_returned c agent_request s hs hreq).1
    refine ⟨h1, ?_⟩
    rw [h0, h1]
    simp [reset_sequence, is_reply_call]
  · rw [h0, replies_sent_append]
    simp [reset_sequence, replies_sent, reply_sent]

/-- Witness of C10: an internally triggered reset of the counting
collaborators. -/
theorem reset_without_request_witness :
    resetting (demoState false) = false ∧
    (reset demo Json.null (demoState false)).1 = .ok () ∧
    (reset demo Json.null (demoState false)).2.trace =
      [.before_reset,
       .send_reset_reply .null 7,
       .send_env_describe "flashgames.DuskDrive-v0" "resetting" 7 60,
       .reset_game,
       .rewarder_reset,
       .send_env_describe "flashgames.DuskDrive-v0" "running" 8 60,
       .after_reset] ∧
    replies_sent (reset demo Json.null (demoState false)).2.trace = [] :=
  ⟨rfl, rfl, (reset_without_request demo (demoState false) rfl rfl).2.1,
    (reset_without_request demo (demoState false) rfl rfl).2.2.2⟩

/-- C11: when the three registrations and the announcement return, the
constructor returns and leaves the controller Running (`resetting()` false)
with its three connections made; it has registered exactly three callbacks,
`Env::reset` for reset requests, `Env::_act` for action batches and
`Env::_when_no_clients` for the no-clients notification, and then made exactly
one status announcement: (envId, "running", the rewarder's episode id, the
rewarder's frames per second). -/
theorem construction_effects (c : Collab X R Id Fps) (envId : String) (r0 : R)
    (x0 x1 x2 x3 x4 : X)
    (h1 : c.on_reset x0 = (x1, .returned))
    (h2 : c.on_action x1 = (x2, .returned))
    (h3 : c.on_no_clients x2 = (x3, .returned))
    (h4 : c.send_env_describe envId "running" (c.get_episode_id r0)
      (c.get_frames_per_second r0) x3 = (x4, .returned)) :
    Env c envId r0 x0 =
      (.ok (),
        { env_id_ := envId, rewarder := r0, world := x4, owns_lock := false,
          agent_reset_connection := true, agent_action_connection := true,
          no_clients_connection := true,
          trace :=
            [.on_reset .reset, .on_action ._act, .on_no_clients ._when_no_clients,
             .send_env_describe envId "running" (c.get_episode_id r0)
               (c.get_frames_per_second r0)] }) ∧
    resetting (Env c envId r0 x0).2 = false ∧
    announcements (Env c envId r0 x0).2.trace =
      [(envId, "running", c.get_episode_id r0, c.get_frames_per_second r0)] := by
  have h : Env c envId r0 x0 =
      (.ok (),
        { env_id_ := envId, rewarder := r0, world := x4, owns_lock := false,
          agent_reset_connection := true, agent_action_connection := true,
          no_clients_connection := true,
          trace :=
            [.on_reset .reset, .on_action ._act, .on_no_clients ._when_no_clients,
             .send_env_describe envId "running" (c.get_episode_id r0)
               (c.get_frames_per_second r0)] }) := by
    simp [Env, init, bind, EnvM.andThen, callWorld, modifyConn, send_env_describe,
      get_episode_id, get_frames_per_second, read_env_id, h1, h2, h3, h4]
  rw [h]
  exact ⟨rfl, rfl, by simp [announcements]⟩

/-- Witness of C11: construction around the counting collaborators. -/
theorem construction_effects_witness :
    demo.on_reset 0 = (1, .returned) ∧
    demo.on_action 1 = (2, .returned) ∧
    demo.on_no_clients 2 = (3, .returned) ∧
    demo.send_env_describe "flashgames.DuskDrive-v0" "running" 7 60 3 = (4, .returned) ∧
    Env demo "flashgames.DuskDrive-v0" 7 0 =
      (.ok (),
        { env_id_ := "flashgames.DuskDrive-v0", rewarder := 7, world := 4, owns_lock := false,
          agent_reset_connection := true, agent_action_connection := true,
          no_clients_connection := true,
          trace :=
            [.on_reset .reset, .on_action ._act, .on_no_clients ._when_no_clients,
             .send_env_describe "flashgames.DuskDrive-v0" "running" 7 60] }) :=
  ⟨rfl, rfl, rfl, rfl,
    (construction_effects demo "flashgames.DuskDrive-v0" 7 0 1 2 3 4 rfl rfl rfl rfl).1⟩

/-- C12: the destructor returns and releases the three registrations, one
`disconnect` each: reset request, action batch, no-clients.  After it, a reset
request, an action batch or a no-clients notification delivered through the
agent connection invokes no callback of the controller and changes nothing;
while a registration is connected, the delivery runs the callback bound at
construction. -/
theorem destruction_releases (c : Collab X R Id Fps) (s : EnvState X R Id Fps) :
    destroy s =
      (.ok (), { s with
        agent_reset_connection := false, agent_action_connection := false,
        no_clients_connection := false,
        trace := s.trace ++
          [.disconnect .reset, .disconnect ._act, .disconnect ._when_no_clients] }) ∧
    (∀ agent_request : Json,
      deliver_reset c agent_request (destroy s).2 = (.ok (), (destroy s).2) ∧
      deliver_action c agent_request (destroy s).2 = (.ok (), (destroy s).2)) ∧
    deliver_no_clients c (destroy s).2 = (.ok (), (destroy s).2) ∧
    (s.agent_reset_connection = true →
      ∀ agent_request : Json, deliver_reset c agent_request s = reset c agent_request s) ∧
    (s.agent_action_connection = true →
      ∀ agent_request : Json, deliver_action c agent_request s = _act c agent_request s) ∧
    (s.no_clients_connection = true → deliver_no_clients c s = _when_no_clients c s) := by
  have h : destroy s =
      (.ok (), { s with
        agent_reset_connection := false, agent_action_connection := false,
        no_clients_connection := false,
        trace := s.trace ++
          [.disconnect .reset, .disconnect ._act, .disconnect ._when_no_clients] }) := by
    simp [destroy, disconnect, record, modifyConn, bind, EnvM.andThen]
  rw [h]
  refine ⟨rfl, fun agent_request => ⟨?_, ?_⟩, ?_, fun hc agent_request => ?_,
    fun hc agent_request => ?_, fun hc => ?_⟩
  · simp [deliver_reset]
  · simp [deliver_action]
  · simp [deliver_no_clients]
  · simp [deliver_reset, hc, invoke]
  · simp [deliver_action, hc, invoke]
  · simp [deliver_no_clients, hc, invoke]

/-- Witness of C12: a reset request reaches the constructed controller and
none reaches the destroyed one. -/
theorem destruction_releases_witness :
    (demoState false).agent_reset_connection = true ∧
    deliver_reset demo (.str "reset-1") (demoState false) =
      reset demo (.str "reset-1") (demoState false) ∧
    deliver_reset demo (.str "reset-1") (destroy (demoState false)).2 =
      (.ok (), (destroy (demoState false)).2) ∧
    (destroy (demoState false)).2.trace =
      [.disconnect .reset, .disconnect ._act, .disconnect ._when_no_clients] :=
  ⟨rfl,
    (destruction_releases demo (demoState false)).2.2.2.1 rfl (.str "reset-1"),
    ((destruction_releases demo (demoState false)).2.1 (.str "reset-1")).1,
    rfl⟩

/-- C13: two dispatch contexts call `Env::reset` on a Running controller; both
evaluate `resetting()` before either reaches the lock of line 53.  Neither
request is rejected: the first context runs the seven calls, and when it has
finished the second runs them again; no warning is logged. -/
theorem reset_race_runs_both :
    exits (run_schedule demo [0, 1, 0, 1]
      [⟨.str "reset-A", .entry⟩, ⟨.str "reset-B", .entry⟩] (demoState false)).1 =
      [some (.ok ()), some (.ok ())] ∧
    (run_schedule demo [0, 1, 0, 1]
      [⟨.str "reset-A", .entry⟩, ⟨.str "reset-B", .entry⟩] (demoState false)).2.trace =
      [.before_reset,
       .send_reset_reply (.str "reset-A") 7,
       .send_env_describe "flashgames.DuskDrive-v0" "resetting" 7 60,
       .reset_game,
       .rewarder_reset,
       .send_env_describe "flashgames.DuskDrive-v0" "running" 8 60,
       .after_reset,
       .before_reset,
       .send_reset_reply (.str "reset-B") 8,
       .send_env_describe "flashgames.DuskDrive-v0" "resetting" 8 60,
       .reset_game,
       .rewarder_reset,
       .send_env_describe "flashgames.DuskDrive-v0" "running" 9 60,
       .after_reset] := by
  rw [run_schedule_race demo (.str "reset-A") (.str "reset-B") (demoState false) rfl]
  exact ⟨rfl, rfl⟩

/-- C14: from a state in which `resetting()` is false, when the calls before
step k return and step k raises, `Env::reset` exits with that same exception;
the calls made are those of the steps up to k, in order, the one that raised
being the last and the ones before it the only ones that returned; no step
after k is called; the guard is released.  This for each of the seven steps:
before_reset, the reply, the "resetting" announcement, reset_game,
rewarder.reset, the "running" announcement, after_reset. -/
theorem reset_propagates_failure (c : Collab X R Id Fps) (agent_request : Json)
    (s : EnvState X R Id Fps) (e : Err) (x1 x2 x3 x4 x5 x6 : X) (r1 : R)
    (hs : resetting s = false) :
    (c.before_reset s.world = (x1, .raised e) →
      reset c agent_request s =
        (.raised e, { s with
          world := x1, owns_lock := false,
          trace := s.trace ++ [.before_reset] })) ∧
    (c.before_reset s.world = (x1, .returned) →
      (c.send_reset_reply agent_request (c.get_episode_id s.rewarder) x1 = (x2, .raised e) →
        reset c agent_request s =
          (.raised e, { s with
            world := x2, owns_lock := false,
            trace := s.trace ++
              [.before_reset,
               .send_reset_reply agent_request (c.get_episode_id s.rewarder)] })) ∧
      (c.send_reset_reply agent_request (c.get_episode_id s.rewarder) x1 = (x2, .returned) →
        (c.send_env_describe s.env_id_ "resetting" (c.get_episode_id s.rewarder)
            (c.get_frames_per_second s.rewarder) x2 = (x3, .raised e) →
          reset c agent_request s =
            (.raised e, { s with
              world := x3, owns_lock := false,
              trace := s.trace ++
                [.before_reset,
                 .send_reset_reply agent_request (c.get_episode_id s.rewarder),
                 .send_env_describe s.env_id_ "resetting" (c.get_episode_id s.rewarder)
                   (c.get_frames_per_second s.rewarder)] })) ∧
        (c.send_env_describe s.env_id_ "resetting" (c.get_episode_id s.rewarder)
            (c.get_frames_per_second s.rewarder) x2 = (x3, .returned) →
          (c.reset_game x3 = (x4, .raised e) →
            reset c agent_request s =
              (.raised e, { s with
                world := x4, owns_lock := false,
                trace := s.trace ++
                  [.before_reset,
                   .send_reset_reply agent_request (c.get_episode_id s.rewarder),
                   .send_env_describe s.env_id_ "resetting" (c.get_episode_id s.rewarder)
                     (c.get_frames_per_second s.rewarder),
                   .reset_game] })) ∧
          (c.reset_game x3 = (x4, .returned) →
            (c.rewarder_reset s.rewarder = (r1, .raised e) →
              reset c agent_request s =
                (.raised e, { s with
                  world := x4, rewarder := r1, owns_lock := false,
                  trace := s.trace ++
                    [.before_reset,
                     .send_reset_reply agent_request (c.get_episode_id s.rewarder),
                     .send_env_describe s.env_id_ "resetting" (c.get_episode_id s.rewarder)
                       (c.get_frames_per_second s.rewarder),
                     .reset_game,
                     .rewarder_reset] })) ∧
            (c.rewarder_reset s.rewarder = (r1, .returned) →
              (c.send_env_describe s.env_id_ "running" (c.get_episode_id r1)
                  (c.get_frames_per_second r1) x4 = (x5, .raised e) →
                reset c agent_request s =
                  (.raised e, { s with
                    world := x5, rewarder := r1, owns_lock := false,
                    trace := s.trace ++
                      [.before_reset,
                       .send_reset_reply agent_request (c.get_episode_id s.rewarder),
                       .send_env_describe s.env_id_ "resetting" (c.get_episode_id s.rewarder)
                         (c.get_frames_per_second s.rewarder),
                       .reset_game,
                       .rewarder_reset,
                       .send_env_describe s.env_id_ "running" (c.get_episode_id r1)
                         (c.get_frames_per_second r1)] })) ∧
              (c.send_env_describe s.env_id_ "running" (c.get_episode_id r1)
                  (c.get_frames_per_second r1) x4 = (x5, .returned) →
                c.after_reset x5 = (x6, .raised e) →
                reset c agent_request s =
                  (.raised e, { s with
                    world := x6, rewarder := r1, owns_lock := false,
                    trace := s.trace ++
                      [.before_reset,
                       .send_reset_reply agent_request (c.get_episode_id s.rewarder),
                       .send_env_describe s.env_id_ "resetting" (c.get_episode_id s.rewarder)
                         (c.get_frames_per_second s.rewarder),
                       .reset_game,
                       .rewarder_reset,
                       .send_env_describe s.env_id_ "running" (c.get_episode_id r1)
                         (c.get_frames_per_second r1),
                       .after_reset] }))))))) := by
  have hs' : s.owns_lock = false := hs
  refine ⟨fun h1 => ?_, fun h1 => ⟨fun h2 => ?_, fun h2 => ⟨fun h3 => ?_, fun h3 =>
    ⟨fun h4 => ?_, fun h4 => ⟨fun h5 => ?_, fun h5 => ⟨fun h6 => ?_, fun h6 h7 => ?_⟩⟩⟩⟩⟩⟩
  · simp [reset, hs, hs', lock_guard, lock, unlock, bind, EnvM.andThen, callWorld, h1]
  · simp [reset, hs, hs', lock_guard, lock, unlock, bind, EnvM.andThen, callWorld,
      send_reset_reply, get_episode_id, h1, h2]
  · simp [reset, hs, hs', lock_guard, lock, unlock, bind, EnvM.andThen, callWorld,
      send_reset_reply, send_env_describe, get_episode_id, get_frames_per_second, read_env_id,
      h1, h2, h3]
  · simp [reset, hs, hs', lock_guard, lock, unlock, bind, EnvM.andThen, callWorld,
      send_reset_reply, send_env_describe, get_episode_id, get_frames_per_second, read_env_id,
      h1, h2, h3, h4]
  · simp [reset, hs, hs', lock_guard, lock, unlock, bind, EnvM.andThen, callWorld,
      callRewarder, send_reset_reply, send_env_describe, get_episode_id, get_frames_per_second,
      read_env_id, h1, h2, h3, h4, h5]
  · simp [reset, hs, hs', lock_guard, lock, unlock, bind, EnvM.andThen, callWorld,
      callRewarder, send_reset_reply, send_env_describe, get_episode_id, get_frames_per_second,
      read_env_id, h1, h2, h3, h4, h5, h6]
  · simp [reset, hs, hs', lock_guard, lock, unlock, bind, EnvM.andThen, callWorld,
      callRewarder, send_reset_reply, send_env_describe, get_episode_id, get_frames_per_second,
      read_env_id, h1, h2, h3, h4, h5, h6, h7]

/-- Witness of C14: the game fails to come up in `reset_game`; the rewarder is
not reset and "running" is not announced. -/
theorem reset_propagates_failure_witness :
    resetting (demoState false) = false ∧
    (demoFailing 4).before_reset 0 = (1, .returned) ∧
    (demoFailing 4).send_reset_reply (.str "reset-1") 7 1 = (2, .returned) ∧
    (demoFailing 4).send_env_describe "flashgames.DuskDrive-v0" "resetting" 7 60 2 =
      (3, .returned) ∧
    (demoFailing 4).reset_game 3 = (4, .raised "game not ready") ∧
    reset (demoFailing 4) (.str "reset-1") (demoState false) =
      (.raised "game not ready", { demoState false with
        world := 4, owns_lock := false,
        trace := [] ++
          [.before_reset,
           .send_reset_reply (.str "reset-1") 7,
           .send_env_describe "flashgames.DuskDrive-v0" "resetting" 7 60,
           .reset_game] }) :=
  ⟨rfl, rfl, rfl, rfl, rfl,
    ((((reset_propagates_failure (demoFailing 4) (.str "reset-1") (demoState false)
      "game not ready" 1 2 3 4 0 0 0 rfl).2 rfl).2 rfl).2 rfl).1 rfl⟩

end Env
